import Mathlib

/-!
Verification of the format-detection and normalization engine of
FinFastAPIServer (main_no_ai_v12.py, class DataNormalizer).

Modelling conventions:
* Python strings are modelled as lists of characters (abbrev Str).
* Python floats are modelled by PyFloat: an exact rational for finite
  values plus the three non-finite values (inf, -inf, nan).  Binary
  rounding of decimal literals and overflow of astronomically large
  literals to infinity are not modelled; every decimal literal denotes
  its exact rational value.
* Rationals are always built with mkRat so that all definitions reduce
  inside the kernel.
* Cell values are PyVal: a string, a float, or Python None.
* A pandas DataFrame is a list of column names together with rows; each
  row is an association list from column name to value, kept aligned
  with the column list by construction.
-/

abbrev Str := List Char

def toStr (s : String) : Str := s.toList

/-- Python float values: finite (exact rational), infinities and NaN. -/
inductive PyFloat where
  | finite (q : ℚ)
  | inf
  | neginf
  | nan
deriving DecidableEq

/-- Negation of a Python float (used by invert_negatives). -/
def PyFloat.neg : PyFloat → PyFloat
  | .finite q => .finite (mkRat (-q.num) q.den)
  | .inf => .neginf
  | .neginf => .inf
  | .nan => .nan

/-- Subtraction of Python floats (used by apply_debe_haber). -/
def PyFloat.sub : PyFloat → PyFloat → PyFloat
  | .nan, _ => .nan
  | _, .nan => .nan
  | .finite a, .finite b => .finite (mkRat (a.num * b.den - b.num * a.den) (a.den * b.den))
  | .finite _, .inf => .neginf
  | .finite _, .neginf => .inf
  | .inf, .inf => .nan
  | .inf, _ => .inf
  | .neginf, .neginf => .nan
  | .neginf, _ => .neginf

/-- A cell value: a string, a float, or Python None. -/
inductive PyVal where
  | str (s : Str)
  | num (f : PyFloat)
  | null
deriving DecidableEq

/-- pd.isna on a scalar: None and NaN are missing. -/
def isNA : PyVal → Bool
  | .null => true
  | .num .nan => true
  | _ => false

/- ------------------------------------------------------------------ -/
/- String helpers mirroring the Python operations used by the source.  -/
/- ------------------------------------------------------------------ -/

/-- str.lower(); the source only ever lowercases ASCII column names. -/
def lowerStr (s : Str) : Str := s.map Char.toLower

/-- str.strip(): remove leading and trailing whitespace. -/
def trimStr (s : Str) : Str :=
  ((s.dropWhile Char.isWhitespace).reverse.dropWhile Char.isWhitespace).reverse

/-- re.sub(r'[€$£\s]', '', s): drop currency symbols and whitespace. -/
def removeMoneyWs (s : Str) : Str :=
  s.filter (fun c => ¬(c = '€' ∨ c = '$' ∨ c = '£' ∨ c.isWhitespace = true))

/-- Auxiliary for str.rfind: index of the last occurrence, counting from i. -/
def lastIdxAux : Str → Char → Nat → Option Nat
  | [], _, _ => Option.none
  | x :: xs, c, i =>
    match lastIdxAux xs c (i + 1) with
    | some j => some j
    | Option.none => if x = c then some i else Option.none

/-- str.rfind(c): index of the last occurrence of c, if any. -/
def lastIdxOf (s : Str) (c : Char) : Option Nat := lastIdxAux s c 0

/-- str.replace(old, ''): delete every occurrence of a character. -/
def pyReplaceDel : Str → Char → Str
  | [], _ => []
  | x :: xs, c => if x = c then pyReplaceDel xs c else x :: pyReplaceDel xs c

/-- str.replace(old, new) for single characters. -/
def pyReplaceTo : Str → Char → Char → Str
  | [], _, _ => []
  | x :: xs, c, d => (if x = c then d else x) :: pyReplaceTo xs c d

/-- Does hay start with needle? -/
def startsWith : Str → Str → Bool
  | [], _ => true
  | _ :: _, [] => false
  | a :: as, b :: bs => a = b && startsWith as bs

/-- Python substring test: needle in hay. -/
def hasSub (hay needle : Str) : Bool :=
  match hay with
  | [] => needle = []
  | _ :: t => startsWith needle hay || hasSub t needle

/-- Numeric value of a list of decimal digits. -/
def digitsToNat (s : Str) : Nat :=
  s.foldl (fun a c => a * 10 + (c.toNat - 48)) 0

/-- Parse an unsigned decimal float literal: digits [. digits] [(e|E) [sign] digits].
    At least one mantissa digit is required and no trailing garbage is allowed,
    as in Python's float(). -/
def parseDecimal (s : Str) : Option ℚ :=
  let p1 := s.span Char.isDigit
  let d1 := p1.1
  let p2 := match p1.2 with
    | '.' :: t => t.span Char.isDigit
    | r => (([] : Str), r)
  let d2 := p2.1
  let hadDot := match p1.2 with
    | '.' :: _ => true
    | _ => false
  let rest := if hadDot then p2.2 else p1.2
  if d1 = [] ∧ d2 = [] then Option.none
  else
    let m : Nat := digitsToNat (d1 ++ d2)
    match rest with
    | [] => some (mkRat m (10 ^ d2.length))
    | e :: t =>
      if e = 'e' ∨ e = 'E' then
        let p3 : Bool × Str := match t with
          | '+' :: u => (false, u)
          | '-' :: u => (true, u)
          | u => (false, u)
        let p4 := p3.2.span Char.isDigit
        if p4.1 = [] ∨ p4.2 ≠ [] then Option.none
        else
          let ed := digitsToNat p4.1
          let ex : Int := (if p3.1 then -(ed : Int) else (ed : Int)) - d2.length
          some (if 0 ≤ ex then mkRat (m * 10 ^ ex.toNat) 1 else mkRat m (10 ^ (-ex).toNat))
      else Option.none

/-- Split an optional leading sign: (isNegative, remainder). -/
def splitSign : Str → Bool × Str
  | '+' :: r => (false, r)
  | '-' :: r => (true, r)
  | r => (false, r)

/-- Python float(s) on an already whitespace-free string: an optional sign
    followed by a decimal literal or one of the special words inf, infinity,
    nan (case-insensitive).  Returns none when float() would raise ValueError.
    Underscore digit grouping (accepted by Python) is not modelled. -/
def floatOfStr (s : Str) : Option PyFloat :=
  let p : Bool × Str := splitSign s
  let low := lowerStr p.2
  if low = toStr "inf" ∨ low = toStr "infinity" then
    some (if p.1 then .neginf else .inf)
  else if low = toStr "nan" then some .nan
  else
    match parseDecimal p.2 with
    | some q => some (.finite (if p.1 then mkRat (-q.num) q.den else q))
    | Option.none => Option.none

/-- The comma/dot disambiguation step of DataNormalizer.clean_numeric
    (main_no_ai_v12.py lines 733-745): with both separators present the one
    occurring last is the decimal separator; with only commas present the
    comma is decimal when it sits within the last 3 characters. -/
def sepResolve (s : Str) : Str :=
  if s.contains ',' && s.contains '.' then
    let lc := (lastIdxOf s ',').getD 0
    let ld := (lastIdxOf s '.').getD 0
    if lc > ld then pyReplaceTo (pyReplaceDel s '.') ',' '.'
    else pyReplaceDel s ','
  else if s.contains ',' then
    if (lastIdxOf s ',').getD 0 + 4 > s.length then pyReplaceTo s ',' '.'
    else pyReplaceDel s ','
  else s

/-- DataNormalizer.clean_numeric (main_no_ai_v12.py lines 724-750).
    A numeric input is stringified by Python and reparsed by float(), which
    round-trips, so the numeric case returns the value itself (after the
    pd.isna check). -/
def clean_numeric (v : PyVal) : PyFloat :=
  match v with
  | .null => .finite 0
  | .num .nan => .finite 0
  | .num f => f
  | .str s =>
    if s = [] then .finite 0
    else
      let s1 := removeMoneyWs (trimStr s)
      let s2 := sepResolve s1
      (floatOfStr s2).getD (.finite 0)

/- ------------------------------------------------------------------ -/
/- DataFrame model.                                                    -/
/- ------------------------------------------------------------------ -/

abbrev Row := List (Str × PyVal)

/-- A DataFrame: ordered column labels and rows; each row is an
    association list from column label to value, kept aligned with the
    column list by construction of the pipeline. -/
structure DF where
  cols : List Str
  rows : List Row
deriving DecidableEq

/-- Lookup of a cell by column label (first matching entry).  A missing
    label yields NaN, the value pandas fills in for absent keys. -/
def cell (r : Row) (c : Str) : PyVal :=
  ((r.find? (fun p => p.1 = c)).map (fun p => p.2)).getD (.num .nan)

/-- Well-formed frame: every row carries exactly the frame's columns. -/
abbrev WF (df : DF) : Prop := ∀ r ∈ df.rows, r.map Prod.fst = df.cols

/- ------------------------------------------------------------------ -/
/- Format detection (DataNormalizer.detect_format, lines 91-107 and    -/
/- 683-722 of main_no_ai_v12.py).                                      -/
/- ------------------------------------------------------------------ -/

/-- The year-column pattern re.compile(r'^a?\d{4}$'): an optional leading
    'a' followed by exactly four digits.  (When the first character is 'a'
    the whole string cannot be four digits, so testing only the tail there
    is equivalent to the regex alternation.) -/
def yearLike (s : Str) : Bool :=
  match s with
  | c :: t =>
    if c = 'a' then t.length = 4 && t.all Char.isDigit
    else (c :: t).length = 4 && (c :: t).all Char.isDigit
  | [] => false

def conceptTerms : List Str := [toStr "concepto", toStr "nombre", toStr "concept", toStr "name"]
def dateTerms : List Str := [toStr "fecha", toStr "date"]
def amountTerms : List Str := [toStr "importe", toStr "monto", toStr "amount", toStr "cantidad"]
def categoryTerms : List Str := [toStr "categoria", toStr "category", toStr "tipo", toStr "type"]
def budgetTerms : List Str := [toStr "presupuesto", toStr "budget", toStr "planeado"]
def actualTerms : List Str := [toStr "real", toStr "actual", toStr "ejecutado"]
def debitTerms : List Str := [toStr "debe", toStr "debit"]
def creditTerms : List Str := [toStr "haber", toStr "credit"]

/-- [str(c).lower().strip() for c in df.columns] -/
def colsLower (cols : List Str) : List Str := cols.map (fun c => trimStr (lowerStr c))

/-- ' '.join(cols_lower) -/
def joinedCols (cols : List Str) : Str := List.intercalate (toStr " ") (colsLower cols)

/-- any(term in ' '.join(cols_lower) for term in terms) -/
def hasTermIn (cols : List Str) (terms : List Str) : Bool :=
  terms.any (fun t => hasSub (joinedCols cols) t)

/-- [c for c in cols_lower if year_pattern.match(c)] -/
def yearColsOf (cols : List Str) : List Str := (colsLower cols).filter yearLike

def warnOnly2Years : String :=
  "Solo se detectaron 2 años, se recomienda al menos 3 para análisis de tendencias"
def warnNoCategory : String :=
  "No se detectó columna de categoría, los análisis serán limitados"
def warnDebeConvert : String :=
  "Formato debe/haber detectado, se convertirá a importe con signo"
def warnUnknownFormat : String :=
  "No se pudo determinar el formato automáticamente"
def warnDebeNotFound : String :=
  "Debe/haber solicitado pero columnas no encontradas"
def warnUnpivotNoConcept : String :=
  "Unpivot solicitado pero no se encontró columna de concepto"
def warnNoFecha : String :=
  "ADVERTENCIA: Formato transaccional pero sin columna 'fecha'"
def warnNoImporte : String :=
  "ADVERTENCIA: Formato transaccional pero sin columna 'importe'"
def warnNoConcepto : String :=
  "ADVERTENCIA: Estado financiero pero sin columna 'concepto'"

/-- The classification cascade of detect_format, as a function of the
    column labels (the confidences 0.9, 0.95, 0.85, 0.8 are written as
    explicit fractions). -/
def detectCore (cols : List Str) : String × ℚ × List String :=
  if 2 ≤ (yearColsOf cols).length ∧ hasTermIn cols conceptTerms then
    ("financial_statement", mkRat 9 10,
      if (yearColsOf cols).length < 3 then [warnOnly2Years] else [])
  else if hasTermIn cols budgetTerms ∧ hasTermIn cols actualTerms ∧
          (hasTermIn cols categoryTerms ∨ hasTermIn cols conceptTerms) then
    ("budget", mkRat 19 20, [])
  else if hasTermIn cols dateTerms ∧ hasTermIn cols amountTerms then
    ("transactional", mkRat 17 20,
      if hasTermIn cols categoryTerms then [] else [warnNoCategory])
  else if hasTermIn cols debitTerms ∧ hasTermIn cols creditTerms then
    ("transactional", mkRat 4 5, [warnDebeConvert])
  else
    ("unknown", 0, [warnUnknownFormat])

/-- DataNormalizer.detect_format: reads only df.columns. -/
def detect_format (df : DF) : String × ℚ × List String := detectCore df.cols

/- ------------------------------------------------------------------ -/
/- Transformer operations.                                             -/
/- ------------------------------------------------------------------ -/

/-- Apply a function to every value of one column (a pandas column
    assignment from a Series computed off the same frame). -/
def mapColValue (df : DF) (c : Str) (f : PyVal → PyVal) : DF :=
  { cols := df.cols,
    rows := df.rows.map (fun r => r.map (fun p => if p.1 = c then (p.1, f p.2) else p)) }

/-- DataNormalizer.unpivot_years (lines 752-776): pd.melt keeps the id
    columns and stacks the year columns one after another (all rows for
    the first year column, then all rows for the second, and so on);
    afterwards the year column has every 'a' removed and the amount
    column is run through clean_numeric.  The concept_col parameter is
    unused, exactly as in the source. -/
def unpivot_years (df : DF) (conceptCol : Str) (yearCols : List Str) : DF :=
  let _ := conceptCol
  let idCols := df.cols.filter (fun c => ¬ (c ∈ yearCols))
  let melted : DF :=
    { cols := idCols ++ [toStr "año", toStr "importe"],
      rows := yearCols.flatMap (fun yc => df.rows.map (fun r =>
        idCols.map (fun c => (c, cell r c)) ++
          [(toStr "año", PyVal.str yc), (toStr "importe", cell r yc)])) }
  let s2 := mapColValue melted (toStr "año")
    (fun v => match v with
      | .str s => .str (pyReplaceDel s 'a')
      | _ => .num .nan)
  mapColValue s2 (toStr "importe") (fun v => .num (clean_numeric v))

/-- df[c] = series computed row-wise from the current frame; overwrites
    the column in place when present, else appends it at the end. -/
def setCol (df : DF) (c : Str) (f : Row → PyFloat) : DF :=
  if c ∈ df.cols then
    { cols := df.cols,
      rows := df.rows.map (fun r => r.map (fun p => if p.1 = c then (p.1, PyVal.num (f r)) else p)) }
  else
    { cols := df.cols ++ [c], rows := df.rows.map (fun r => r ++ [(c, PyVal.num (f r))]) }

/-- df.drop(columns=cs). -/
def dropColumns (df : DF) (cs : List Str) : DF :=
  { cols := df.cols.filter (fun c => ¬ (c ∈ cs)),
    rows := df.rows.map (fun r => r.filter (fun p => ¬ (p.1 ∈ cs))) }

/-- Read a cell that holds a float by construction. -/
def asFloat : PyVal → PyFloat
  | .num f => f
  | _ => .nan

/-- DataNormalizer.apply_debe_haber (lines 778-792). -/
def apply_debe_haber (df : DF) (debitCol creditCol : Str) : DF :=
  let d1 := setCol df (toStr "debe_clean") (fun r => clean_numeric (cell r debitCol))
  let d2 := setCol d1 (toStr "haber_clean") (fun r => clean_numeric (cell r creditCol))
  let d3 := setCol d2 (toStr "importe") (fun r =>
    PyFloat.sub (asFloat (cell r (toStr "debe_clean"))) (asFloat (cell r (toStr "haber_clean"))))
  dropColumns d3 [toStr "debe_clean", toStr "haber_clean", debitCol, creditCol]

/- ------------------------------------------------------------------ -/
/- Normalization pipeline (DataNormalizer.normalize, lines 794-870 and -/
/- 1375-1439 of main_no_ai_v12.py).                                    -/
/- ------------------------------------------------------------------ -/

/-- The column mapping dictionary; none models an absent or None-valued
    role (the endpoint passes request.mapping.dict(), whose unset keys
    hold None; both are falsy wherever the code tests them). -/
structure ColumnMapping where
  date_column : Option Str
  amount_column : Option Str
  category_column : Option Str
  concept_column : Option Str
  debit_column : Option Str
  credit_column : Option Str
deriving DecidableEq

/-- All-roles-unset mapping. -/
def ColumnMapping.empty : ColumnMapping :=
  ⟨Option.none, Option.none, Option.none, Option.none, Option.none, Option.none⟩

/-- The rules dictionary with the defaults taken by rules.get(...). -/
structure NormalizationRules where
  unpivot : Bool
  unpivot_year_columns : List Str
  debe_haber : Bool
  invert_negatives : Bool
  detect_format : Bool
  drop_empty_rows : Bool
  drop_empty_columns : Bool
deriving DecidableEq

/-- Rules with every flag at its rules.get default. -/
def NormalizationRules.default : NormalizationRules :=
  ⟨false, [], false, false, true, true, true⟩

/-- Entries of the transformations_applied log.  The source stores
    formatted strings; the payload data of each entry is kept instead of
    the rendered text. -/
inductive TLog where
  | droppedRows (n : Nat)
  | droppedCols (n : Nat)
  | formatDetected (fmt : String) (conf : ℚ)
  | debeHaberApplied (debitCol creditCol : Str)
  | unpivotApplied (nYears : Nat)
  | unpivotAutoApplied (conceptCol : Str)
  | negativesInverted
  | columnsRenamed (sources : List Str)
deriving DecidableEq

/-- Python truthiness of an optional string: None and '' are falsy. -/
def truthy : Option Str → Bool
  | some s => ¬(s = [])
  | Option.none => false

/-- Rational multiplication via mkRat (kernel-reducible). -/
def qmul (a b : ℚ) : ℚ := mkRat (a.num * b.num) (a.den * b.den)

/-- Rational subtraction via mkRat (kernel-reducible). -/
def qsub (a b : ℚ) : ℚ := mkRat (a.num * b.den - b.num * a.den) (a.den * b.den)

/-- round(q, 2): round to 2 decimal places, ties to even, as Python's
    round on an exactly-representable value. -/
def pyRound2 (q : ℚ) : ℚ :=
  let x : ℚ := qmul q (mkRat 100 1)
  let f : Int := Rat.floor x
  let r : ℚ := qsub x (mkRat f 1)
  let n : Int :=
    if r < mkRat 1 2 then f
    else if mkRat 1 2 < r then f + 1
    else if f % 2 = 0 then f else f + 1
  mkRat n 100

/-- The result envelope returned by normalize. -/
structure NormalizedResult where
  normalized_data : List Row
  format_detected : String
  confidence : ℚ
  warnings : List String
  transformations_applied : List TLog
  columns : List Str
  rows : Nat
deriving DecidableEq

/-- Column labels of pd.DataFrame(list-of-dicts): union of the row keys
    in first-appearance order. -/
def collectCols (data : List Row) : List Str :=
  data.foldl (fun acc r => r.foldl (fun a p => if p.1 ∈ a then a else a ++ [p.1]) acc) []

/-- pd.DataFrame(data): rectangular frame, missing keys filled with NaN. -/
def dfOfRecords (data : List Row) : DF :=
  let cs := collectCols data
  { cols := cs, rows := data.map (fun r => cs.map (fun c => (c, cell r c))) }

/-- Relabel every column (df.columns = f applied positionally). -/
def renameAll (df : DF) (f : Str → Str) : DF :=
  { cols := df.cols.map f, rows := df.rows.map (fun r => r.map (fun p => (f p.1, p.2))) }

/-- Pipeline state threaded through the ordered steps of normalize. -/
structure PState where
  df : DF
  fmt : String
  conf : ℚ
  warns : List String
  trans : List TLog
deriving DecidableEq

/-- Step 1: df.dropna(how='all') gated by drop_empty_rows. -/
def dropRowsCore (rules : NormalizationRules) (df : DF) : DF × List TLog :=
  if rules.drop_empty_rows then
    let kept := df.rows.filter (fun r => ¬ (df.cols.all (fun c => isNA (cell r c))))
    let dropped := df.rows.length - kept.length
    ({ df with rows := kept }, if 0 < dropped then [.droppedRows dropped] else [])
  else (df, [])

/-- Step 1b: df.dropna(axis=1, how='all') gated by drop_empty_columns. -/
def dropColsCore (rules : NormalizationRules) (df : DF) : DF × List TLog :=
  if rules.drop_empty_columns then
    let keptCols := df.cols.filter (fun c => ¬ (df.rows.all (fun r => isNA (cell r c))))
    let dropped := df.cols.length - keptCols.length
    ({ cols := keptCols, rows := df.rows.map (fun r => r.filter (fun p => p.1 ∈ keptCols)) },
     if 0 < dropped then [.droppedCols dropped] else [])
  else (df, [])

/-- Step 3 core: the debit/credit merge, applied only when both mapped
    columns are truthy and present; otherwise a warning. -/
def debeCore (mapping : ColumnMapping) (df : DF) : DF × List String × List TLog :=
  let dc := mapping.debit_column.getD []
  let cc := mapping.credit_column.getD []
  if truthy mapping.debit_column ∧ truthy mapping.credit_column ∧
     dc ∈ df.cols ∧ cc ∈ df.cols then
    (apply_debe_haber df dc cc, [], [.debeHaberApplied dc cc])
  else (df, [warnDebeNotFound], [])

/-- Step 4 core: unpivot.  Resolves year columns from the rules (else by
    the year pattern), then the concept column from the mapping (first
    branch) or by term search (second branch); any other combination
    falls through silently, exactly as the if/elif chain does. -/
def unpivotCore (mapping : ColumnMapping) (rules : NormalizationRules) (df : DF) :
    DF × Option String × List String × List TLog :=
  let ycs := if rules.unpivot_year_columns = [] then df.cols.filter yearLike
             else rules.unpivot_year_columns
  let cOpt := mapping.concept_column
  if ¬(ycs = []) ∧ truthy cOpt ∧ (cOpt.getD []) ∈ df.cols then
    (unpivot_years df (cOpt.getD []) ycs, some "transactional", [], [.unpivotApplied ycs.length])
  else if ¬(ycs = []) ∧ ¬(truthy cOpt = true) then
    match df.cols.find? (fun col => conceptTerms.any (fun t => hasSub col t)) with
    | some col => (unpivot_years df col ycs, some "transactional", [], [.unpivotAutoApplied col])
    | Option.none => (df, Option.none, [warnUnpivotNoConcept], [])
  else (df, Option.none, [], [])

/-- Step 5 core: sign inversion on the amount column (default 'importe'). -/
def invertCore (mapping : ColumnMapping) (df : DF) : DF × List TLog :=
  let amountCol := mapping.amount_column.getD (toStr "importe")
  if amountCol ∈ df.cols then
    (mapColValue df amountCol (fun v => match v with | .num f => .num f.neg | v => v),
     [.negativesInverted])
  else (df, [])

/-- Insert into the rename dictionary: a later role with the same source
    column overwrites the earlier entry, as Python dict assignment does. -/
def assocSet (l : List (Str × Str)) (k v : Str) : List (Str × Str) :=
  if l.any (fun p => p.1 = k) then l.map (fun p => if p.1 = k then (k, v) else p)
  else l ++ [(k, v)]

/-- Step 6 core: the rename_map construction and df.rename. -/
def renameCore (mapping : ColumnMapping) (df : DF) : DF × List TLog :=
  let m0 : List (Str × Str) := []
  let m1 := if truthy mapping.date_column ∧ (mapping.date_column.getD []) ∈ df.cols
            then assocSet m0 (mapping.date_column.getD []) (toStr "fecha") else m0
  let m2 := if truthy mapping.amount_column ∧ (mapping.amount_column.getD []) ∈ df.cols
            then assocSet m1 (mapping.amount_column.getD []) (toStr "importe") else m1
  let m3 := if truthy mapping.category_column ∧ (mapping.category_column.getD []) ∈ df.cols
            then assocSet m2 (mapping.category_column.getD []) (toStr "categoria") else m2
  let m4 := if truthy mapping.concept_column ∧ (mapping.concept_column.getD []) ∈ df.cols
            then assocSet m3 (mapping.concept_column.getD []) (toStr "concepto") else m3
  if ¬(m4 = []) then
    (renameAll df (fun c => ((m4.find? (fun p => p.1 = c)).map (fun p => p.2)).getD c),
     [.columnsRenamed (m4.map Prod.fst)])
  else (df, [])

/-- Step 7 core: final validation; lowers confidence and warns when the
    canonical columns expected for the detected format are missing. -/
def validateCore (df : DF) (fmt : String) (conf : ℚ) : ℚ × List String :=
  let p1 : ℚ × List String :=
    if fmt = "transactional" then
      let a : ℚ × List String :=
        if (toStr "fecha") ∈ df.cols then (conf, [])
        else (qmul conf (mkRat 7 10), [warnNoFecha])
      if (toStr "importe") ∈ df.cols then a
      else (qmul a.1 (mkRat 7 10), a.2 ++ [warnNoImporte])
    else (conf, [])
  if fmt = "financial_statement" ∧ ¬ ((toStr "concepto") ∈ df.cols) then
    (qmul p1.1 (mkRat 4 5), p1.2 ++ [warnNoConcepto])
  else p1

def stepDropRows (rules : NormalizationRules) (st : PState) : PState :=
  let r := dropRowsCore rules st.df
  { df := r.1, fmt := st.fmt, conf := st.conf, warns := st.warns, trans := st.trans ++ r.2 }

def stepDropCols (rules : NormalizationRules) (st : PState) : PState :=
  let r := dropColsCore rules st.df
  { df := r.1, fmt := st.fmt, conf := st.conf, warns := st.warns, trans := st.trans ++ r.2 }

def stepDetect (rules : NormalizationRules) (st : PState) : PState :=
  if rules.detect_format then
    let r := detect_format st.df
    { df := st.df, fmt := r.1, conf := r.2.1, warns := st.warns ++ r.2.2,
      trans := st.trans ++ [.formatDetected r.1 r.2.1] }
  else st

def stepDebe (mapping : ColumnMapping) (rules : NormalizationRules) (st : PState) : PState :=
  if rules.debe_haber then
    let r := debeCore mapping st.df
    { df := r.1, fmt := st.fmt, conf := st.conf, warns := st.warns ++ r.2.1,
      trans := st.trans ++ r.2.2 }
  else st

def stepUnpivot (mapping : ColumnMapping) (rules : NormalizationRules) (st : PState) : PState :=
  if rules.unpivot then
    let r := unpivotCore mapping rules st.df
    { df := r.1, fmt := r.2.1.getD st.fmt, conf := st.conf, warns := st.warns ++ r.2.2.1,
      trans := st.trans ++ r.2.2.2 }
  else st

def stepInvert (mapping : ColumnMapping) (rules : NormalizationRules) (st : PState) : PState :=
  if rules.invert_negatives then
    let r := invertCore mapping st.df
    { df := r.1, fmt := st.fmt, conf := st.conf, warns := st.warns, trans := st.trans ++ r.2 }
  else st

def stepRename (mapping : ColumnMapping) (st : PState) : PState :=
  let r := renameCore mapping st.df
  { df := r.1, fmt := st.fmt, conf := st.conf, warns := st.warns, trans := st.trans ++ r.2 }

def stepValidate (st : PState) : PState :=
  let r := validateCore st.df st.fmt st.conf
  { df := st.df, fmt := st.fmt, conf := r.1, warns := st.warns ++ r.2, trans := st.trans }

/-- Initial state: frame built from the records, labels stripped and
    lowercased, format 'unknown', confidence 0. -/
def initState (data : List Row) : PState :=
  { df := renameAll (dfOfRecords data) (fun c => lowerStr (trimStr c)),
    fmt := "unknown", conf := 0, warns := [], trans := [] }

/-- The pipeline up to and including format detection (steps 1-2). -/
def stage3 (data : List Row) (rules : NormalizationRules) : PState :=
  stepDetect rules (stepDropCols rules (stepDropRows rules (initState data)))

/-- Assembly of the result envelope from the final pipeline state. -/
def assembleResult (st : PState) : NormalizedResult :=
  { normalized_data := st.df.rows, format_detected := st.fmt, confidence := pyRound2 st.conf,
    warnings := st.warns, transformations_applied := st.trans,
    columns := st.df.cols, rows := st.df.rows.length }

/-- Steps 4-7 and assembly, starting from the state after the
    debit/credit step. -/
def finishFrom (mapping : ColumnMapping) (rules : NormalizationRules) (st : PState) :
    NormalizedResult :=
  assembleResult (stepValidate (stepRename mapping (stepInvert mapping rules
    (stepUnpivot mapping rules st))))

/-- DataNormalizer.normalize: the ordered pipeline and result envelope. -/
def DataNormalizer.normalize (data : List Row) (mapping : ColumnMapping) (rules : NormalizationRules) :
    NormalizedResult :=
  finishFrom mapping rules (stepDebe mapping rules (stage3 data rules))

/- ------------------------------------------------------------------ -/
/- Specification-side formulations used by the claim statements.       -/
/- ------------------------------------------------------------------ -/

/-- The separator occurring last in a string holding both ',' and '.'
    (the spec's notion of decimal separator for the mixed case). -/
def decSepOf (s : Str) : Char :=
  if (lastIdxOf s ',').getD 0 > (lastIdxOf s '.').getD 0 then ',' else '.'

/-- The separator occurring first (the spec's thousands separator). -/
def othSepOf (s : Str) : Char :=
  if (lastIdxOf s ',').getD 0 > (lastIdxOf s '.').getD 0 then '.' else ','

/-- The claim's description of the unpivoted year value: the column name
    with its leading character dropped when it is not a digit. -/
def stripLeadingNonDigit (s : Str) : Str :=
  match s with
  | c :: t => if c.isDigit then c :: t else t
  | [] => []

/-- The claim's description of one unpivoted output row. -/
def unpivotClaimRow (idCols : List Str) (r : Row) (yc : Str) : Row :=
  (idCols.map (fun c => (c, cell r c))) ++
    [(toStr "año", PyVal.str (stripLeadingNonDigit yc)),
     (toStr "importe", PyVal.num (clean_numeric (cell r yc)))]

/-- Equality of every result field except the warnings list. -/
def sameExceptWarnings (a b : NormalizedResult) : Prop :=
  a.normalized_data = b.normalized_data ∧ a.format_detected = b.format_detected ∧
  a.confidence = b.confidence ∧ a.transformations_applied = b.transformations_applied ∧
  a.columns = b.columns ∧ a.rows = b.rows

/- ------------------------------------------------------------------ -/
/- Concrete inputs used by witnesses, counterexamples and the          -/
/- end-to-end scenario.                                                -/
/- ------------------------------------------------------------------ -/

/-- The end-to-end scenario input of spec section 8. -/
def scenarioData : List Row :=
  [[(toStr "Concepto", .str (toStr "Ventas")),
    (toStr "a2020", .str (toStr "1.000,00")),
    (toStr "a2021", .str (toStr "1.500,00"))]]

def scenarioMapping : ColumnMapping :=
  { ColumnMapping.empty with concept_column := some (toStr "concepto") }

def scenarioRules : NormalizationRules :=
  { NormalizationRules.default with
    unpivot := true
    unpivot_year_columns := [toStr "a2020", toStr "a2021"] }

/-- A 2-row financial-statement shaped frame with two year columns. -/
def twoByTwoDF : DF :=
  { cols := [toStr "concepto", toStr "a2020", toStr "a2021"],
    rows := [[(toStr "concepto", .str (toStr "Ventas")),
              (toStr "a2020", .str (toStr "1")), (toStr "a2021", .str (toStr "2"))],
             [(toStr "concepto", .str (toStr "Costes")),
              (toStr "a2020", .str (toStr "3")), (toStr "a2021", .str (toStr "4"))]] }

/-- The debit/credit frame of spec section 8. -/
def debeHaberDF : DF :=
  { cols := [toStr "debe", toStr "haber"],
    rows := [[(toStr "debe", .str (toStr "100")), (toStr "haber", .str (toStr "0"))],
             [(toStr "debe", .str (toStr "0")), (toStr "haber", .str (toStr "50"))]] }

/-- A frame whose debit column is itself named importe. -/
def debitNamedImporteDF : DF :=
  { cols := [toStr "importe", toStr "haber"],
    rows := [[(toStr "importe", .str (toStr "100")), (toStr "haber", .str (toStr "0"))]] }

/-- A frame that already contains a debe_clean column. -/
def preexistingCleanDF : DF :=
  { cols := [toStr "debe_clean", toStr "debe", toStr "haber"],
    rows := [[(toStr "debe_clean", .str (toStr "keep")),
              (toStr "debe", .str (toStr "1")), (toStr "haber", .str (toStr "2"))]] }

/-- Input for the silent-skip scenario: unpivot requested with a mapped
    concept column that does not exist in the table. -/
def silentSkipData : List Row :=
  [[(toStr "x", .str (toStr "foo")), (toStr "a2020", .str (toStr "1"))]]

def silentSkipMapping : ColumnMapping :=
  { ColumnMapping.empty with concept_column := some (toStr "zzz") }

def silentSkipRules : NormalizationRules :=
  { NormalizationRules.default with unpivot := true }

/-- Two frames with identical columns and different cell values. -/
def valsA : DF :=
  { cols := [toStr "fecha", toStr "importe"],
    rows := [[(toStr "fecha", .str (toStr "2020-01-01")), (toStr "importe", .str (toStr "1"))]] }

def valsB : DF :=
  { cols := [toStr "fecha", toStr "importe"],
    rows := [[(toStr "fecha", .str (toStr "1999-12-31")), (toStr "importe", .str (toStr "2"))],
             [(toStr "fecha", .null), (toStr "importe", .num (.finite 7))]] }

/-- The two-year financial-statement column list of spec section 8. -/
def twoYearDF : DF :=
  { cols := [toStr "concepto", toStr "a2020", toStr "a2021"], rows := [] }

/-- The intermediate rows built by apply_debe_haber: after the
    debe_clean assignment. -/
def adhRow1 (dc : Str) (r : Row) : Row :=
  r ++ [(toStr "debe_clean", PyVal.num (clean_numeric (cell r dc)))]

/-- After the haber_clean assignment. -/
def adhRow2 (dc cc : Str) (r : Row) : Row :=
  adhRow1 dc r ++ [(toStr "haber_clean", PyVal.num (clean_numeric (cell (adhRow1 dc r) cc)))]

/-- The signed amount computed from the two intermediate columns. -/
def adhAmount (dc cc : Str) (r : Row) : PyFloat :=
  PyFloat.sub (asFloat (cell (adhRow2 dc cc r) (toStr "debe_clean")))
              (asFloat (cell (adhRow2 dc cc r) (toStr "haber_clean")))

/-- The columns dropped at the end of apply_debe_haber. -/
def adhKeep (dc cc : Str) : List Str :=
  [toStr "debe_clean", toStr "haber_clean", dc, cc]

/-- Row after the importe assignment when no importe column pre-exists. -/
def adhRow3A (dc cc : Str) (r : Row) : Row :=
  adhRow2 dc cc r ++ [(toStr "importe", PyVal.num (adhAmount dc cc r))]

/-- Row after the importe assignment when importe is overwritten in place. -/
def adhRow3B (dc cc : Str) (r : Row) : Row :=
  (adhRow2 dc cc r).map
    (fun p => if p.1 = toStr "importe" then (p.1, PyVal.num (adhAmount dc cc r)) else p)

/-- A debit/credit frame with an extra passthrough column and a
    pre-existing importe column. -/
def mixedDebeDF : DF :=
  { cols := [toStr "categoria", toStr "debe", toStr "haber", toStr "importe"],
    rows := [[(toStr "categoria", .str (toStr "ventas")),
              (toStr "debe", .str (toStr "7")), (toStr "haber", .str (toStr "2")),
              (toStr "importe", .str (toStr "old"))]] }

/- ================================================================== -/
/- Theorems.                                                           -/
/- ================================================================== -/

theorem pyReplaceDel_eq_filter (s : Str) (c : Char) :
    pyReplaceDel s c = s.filter (fun x => ¬(x = c)) := by
  induction s with
  | nil => rfl
  | cons a t ih =>
    by_cases h : a = c
    · simp [pyReplaceDel, h, ih]
    · simp [pyReplaceDel, h, ih]

theorem pyReplaceTo_eq_map (s : Str) (c d : Char) :
    pyReplaceTo s c d = s.map (fun x => if x = c then d else x) := by
  induction s with
  | nil => rfl
  | cons a t ih => simp [pyReplaceTo, ih]

theorem map_if_dot_id (l : Str) : l.map (fun x => if x = '.' then '.' else x) = l := by
  induction l with
  | nil => rfl
  | cons a t ih =>
    by_cases h : a = '.'
    · simp [h, ih]
    · simp [h, ih]

/-- C2: with both ',' and '.' present, the separator occurring last in the
    string (after currency/whitespace stripping) is taken as the decimal
    separator and the other removed; with only ',' present the comma is
    decimal exactly when it sits within the last 3 characters, else it is
    stripped; and the four pinned examples evaluate to 1234.56, 1234.56,
    1234.0 and 12.5. -/
theorem separator_disambiguation :
    (∀ s : Str, s.contains ',' = true → s.contains '.' = true →
      sepResolve s =
        (s.filter (fun x => ¬(x = othSepOf s))).map
          (fun x => if x = decSepOf s then '.' else x)) ∧
    (∀ s : Str, s.contains ',' = true → s.contains '.' = false →
      sepResolve s =
        (if s.length ≤ (lastIdxOf s ',').getD 0 + 3
         then s.map (fun x => if x = ',' then '.' else x)
         else s.filter (fun x => ¬(x = ',')))) ∧
    clean_numeric (.str (toStr "1.234,56")) = .finite (1234.56 : ℚ) ∧
    clean_numeric (.str (toStr "1,234.56")) = .finite (1234.56 : ℚ) ∧
    clean_numeric (.str (toStr "1,234")) = .finite (1234 : ℚ) ∧
    clean_numeric (.str (toStr "12,5")) = .finite (12.5 : ℚ) := by
  refine ⟨?_, ?_, ?_, ?_, ?_, ?_⟩
  · intro s h1 h2
    unfold sepResolve decSepOf othSepOf
    rw [if_pos (by rw [h1, h2]; rfl)]
    by_cases hcd : (lastIdxOf s ',').getD 0 > (lastIdxOf s '.').getD 0
    · rw [if_pos hcd, if_pos hcd, if_pos hcd, pyReplaceDel_eq_filter, pyReplaceTo_eq_map]
    · rw [if_neg hcd, if_neg hcd, if_neg hcd, pyReplaceDel_eq_filter, map_if_dot_id]
  · intro s h1 h2
    unfold sepResolve
    rw [if_neg (by rw [h1, h2]; simp)]
    rw [if_pos h1]
    by_cases hc : (lastIdxOf s ',').getD 0 + 4 > s.length
    · rw [if_pos hc, if_pos (by omega), pyReplaceTo_eq_map]
    · rw [if_neg hc, if_neg (by omega), pyReplaceDel_eq_filter]
  · have h : clean_numeric (.str (toStr "1.234,56")) = .finite (mkRat 30864 25) := by decide
    have e : (mkRat 30864 25 : ℚ) = (1234.56 : ℚ) := by norm_num [Rat.mkRat_eq_div]
    rw [h, e]
  · have h : clean_numeric (.str (toStr "1,234.56")) = .finite (mkRat 30864 25) := by decide
    have e : (mkRat 30864 25 : ℚ) = (1234.56 : ℚ) := by norm_num [Rat.mkRat_eq_div]
    rw [h, e]
  · have h : clean_numeric (.str (toStr "1,234")) = .finite (mkRat 1234 1) := by decide
    have e : (mkRat 1234 1 : ℚ) = (1234 : ℚ) := by decide
    rw [h, e]
  · have h : clean_numeric (.str (toStr "12,5")) = .finite (mkRat 25 2) := by decide
    have e : (mkRat 25 2 : ℚ) = (12.5 : ℚ) := by norm_num [Rat.mkRat_eq_div]
    rw [h, e]

theorem separator_disambiguation_witness :
    (toStr "1.234,56").contains ',' = true ∧ (toStr "1.234,56").contains '.' = true ∧
    sepResolve (toStr "1.234,56") =
      ((toStr "1.234,56").filter (fun x => ¬(x = othSepOf (toStr "1.234,56")))).map
        (fun x => if x = decSepOf (toStr "1.234,56") then '.' else x) :=
  ⟨by decide, by decide, separator_disambiguation.1 (toStr "1.234,56") (by decide) (by decide)⟩

/-- C6: clean_numeric is total (never raises) and returns exactly 0.0 on
    null, empty, or unparseable input; a garbage string yields 0.0. -/
theorem clean_numeric_never_raises :
    (∀ v : PyVal, ∃ f : PyFloat, clean_numeric v = f) ∧
    clean_numeric .null = .finite 0 ∧
    clean_numeric (.str []) = .finite 0 ∧
    (∀ s : Str, floatOfStr (sepResolve (removeMoneyWs (trimStr s))) = Option.none →
      clean_numeric (.str s) = .finite 0) ∧
    clean_numeric (.str (toStr "n/a %%")) = .finite 0 := by
  refine ⟨fun v => ⟨clean_numeric v, rfl⟩, by decide, by decide, ?_, by decide⟩
  intro s h
  unfold clean_numeric
  by_cases hs : s = []
  · simp [hs]
  · simp [hs, h]

theorem clean_numeric_never_raises_witness :
    floatOfStr (sepResolve (removeMoneyWs (trimStr (toStr "abc")))) = Option.none ∧
    clean_numeric (.str (toStr "abc")) = .finite 0 :=
  ⟨by decide, clean_numeric_never_raises.2.2.2.1 (toStr "abc") (by decide)⟩

/-- C9: detect_format is a pure function of the column labels: two frames
    with equal column lists get identical format, confidence and
    warnings, whatever their rows. -/
theorem detect_format_depends_only_on_columns :
    ∀ d1 d2 : DF, d1.cols = d2.cols → detect_format d1 = detect_format d2 := by
  intro d1 d2 h
  unfold detect_format
  rw [h]

theorem detect_format_depends_only_on_columns_witness :
    valsA.rows ≠ valsB.rows ∧ detect_format valsA = detect_format valsB :=
  ⟨by decide, detect_format_depends_only_on_columns valsA valsB (by decide)⟩

/-- C1: detect_format classifies by the first matching rule in the fixed
    priority order (financial statement, budget, transactional by
    date+amount, transactional by debit+credit, unknown), with the stated
    confidences and warnings; in particular a table matching both the
    financial-statement rule and the budget rule is classified
    financial_statement. -/
theorem detect_format_priority_order (df : DF) :
    ((2 ≤ (yearColsOf df.cols).length ∧ hasTermIn df.cols conceptTerms = true) →
      detect_format df = ("financial_statement", (0.9 : ℚ),
        if (yearColsOf df.cols).length < 3 then [warnOnly2Years] else [])) ∧
    (¬(2 ≤ (yearColsOf df.cols).length ∧ hasTermIn df.cols conceptTerms = true) →
      (hasTermIn df.cols budgetTerms = true ∧ hasTermIn df.cols actualTerms = true ∧
        (hasTermIn df.cols categoryTerms = true ∨ hasTermIn df.cols conceptTerms = true)) →
      detect_format df = ("budget", (0.95 : ℚ), [])) ∧
    (¬(2 ≤ (yearColsOf df.cols).length ∧ hasTermIn df.cols conceptTerms = true) →
      ¬(hasTermIn df.cols budgetTerms = true ∧ hasTermIn df.cols actualTerms = true ∧
        (hasTermIn df.cols categoryTerms = true ∨ hasTermIn df.cols conceptTerms = true)) →
      (hasTermIn df.cols dateTerms = true ∧ hasTermIn df.cols amountTerms = true) →
      detect_format df = ("transactional", (0.85 : ℚ),
        if hasTermIn df.cols categoryTerms = true then [] else [warnNoCategory])) ∧
    (¬(2 ≤ (yearColsOf df.cols).length ∧ hasTermIn df.cols conceptTerms = true) →
      ¬(hasTermIn df.cols budgetTerms = true ∧ hasTermIn df.cols actualTerms = true ∧
        (hasTermIn df.cols categoryTerms = true ∨ hasTermIn df.cols conceptTerms = true)) →
      ¬(hasTermIn df.cols dateTerms = true ∧ hasTermIn df.cols amountTerms = true) →
      (hasTermIn df.cols debitTerms = true ∧ hasTermIn df.cols creditTerms = true) →
      detect_format df = ("transactional", (0.80 : ℚ), [warnDebeConvert])) ∧
    (¬(2 ≤ (yearColsOf df.cols).length ∧ hasTermIn df.cols conceptTerms = true) →
      ¬(hasTermIn df.cols budgetTerms = true ∧ hasTermIn df.cols actualTerms = true ∧
        (hasTermIn df.cols categoryTerms = true ∨ hasTermIn df.cols conceptTerms = true)) →
      ¬(hasTermIn df.cols dateTerms = true ∧ hasTermIn df.cols amountTerms = true) →
      ¬(hasTermIn df.cols debitTerms = true ∧ hasTermIn df.cols creditTerms = true) →
      detect_format df = ("unknown", (0 : ℚ), [warnUnknownFormat])) ∧
    ((2 ≤ (yearColsOf df.cols).length ∧ hasTermIn df.cols conceptTerms = true) →
      (hasTermIn df.cols budgetTerms = true ∧ hasTermIn df.cols actualTerms = true ∧
        (hasTermIn df.cols categoryTerms = true ∨ hasTermIn df.cols conceptTerms = true)) →
      (detect_format df).1 = "financial_statement") := by
  have e9 : mkRat 9 10 = (0.9 : ℚ) := by norm_num [Rat.mkRat_eq_div]
  have e95 : mkRat 19 20 = (0.95 : ℚ) := by norm_num [Rat.mkRat_eq_div]
  have e85 : mkRat 17 20 = (0.85 : ℚ) := by norm_num [Rat.mkRat_eq_div]
  have e80 : mkRat 4 5 = (0.80 : ℚ) := by norm_num [Rat.mkRat_eq_div]
  refine ⟨?_, ?_, ?_, ?_, ?_, ?_⟩
  · intro h1
    unfold detect_format detectCore
    rw [if_pos h1, e9]
  · intro h1 h2
    unfold detect_format detectCore
    rw [if_neg h1, if_pos h2, e95]
  · intro h1 h2 h3
    unfold detect_format detectCore
    rw [if_neg h1, if_neg h2, if_pos h3, e85]
  · intro h1 h2 h3 h4
    unfold detect_format detectCore
    rw [if_neg h1, if_neg h2, if_neg h3, if_pos h4, e80]
  · intro h1 h2 h3 h4
    unfold detect_format detectCore
    rw [if_neg h1, if_neg h2, if_neg h3, if_neg h4]
  · intro h1 _
    unfold detect_format detectCore
    rw [if_pos h1]

theorem detect_format_priority_order_witness :
    detect_format twoYearDF = ("financial_statement", (0.9 : ℚ), [warnOnly2Years]) := by
  have h := (detect_format_priority_order twoYearDF).1 ⟨by decide, by decide⟩
  rw [h, if_pos (by decide : (yearColsOf twoYearDF.cols).length < 3)]

/-- C3: the end-to-end scenario: one wide row with two year columns,
    unpivot requested with those columns and concept mapped, yields 2
    rows, format transactional, columns concepto/año/importe, and the two
    amounts 1000.0 and 1500.0. -/
theorem normalize_end_to_end_scenario :
    (DataNormalizer.normalize scenarioData scenarioMapping scenarioRules).rows = 2 ∧
    (DataNormalizer.normalize scenarioData scenarioMapping scenarioRules).format_detected =
      "transactional" ∧
    (toStr "concepto") ∈ (DataNormalizer.normalize scenarioData scenarioMapping scenarioRules).columns ∧
    (toStr "año") ∈ (DataNormalizer.normalize scenarioData scenarioMapping scenarioRules).columns ∧
    (toStr "importe") ∈ (DataNormalizer.normalize scenarioData scenarioMapping scenarioRules).columns ∧
    cell ((DataNormalizer.normalize scenarioData scenarioMapping scenarioRules).normalized_data.getD 0 [])
      (toStr "importe") = .num (.finite 1000) ∧
    cell ((DataNormalizer.normalize scenarioData scenarioMapping scenarioRules).normalized_data.getD 1 [])
      (toStr "importe") = .num (.finite 1500) := by
  exact ⟨by decide, by decide, by decide, by decide, by decide, by decide, by decide⟩

theorem cell_cons (p : Str × PyVal) (t : Row) (c : Str) :
    cell (p :: t) c = if p.1 = c then p.2 else cell t c := by
  by_cases hp : p.1 = c
  · simp [cell, List.find?, hp]
  · simp [cell, List.find?, hp]

theorem cell_append (r l : Row) (c : Str) :
    cell (r ++ l) c = if c ∈ r.map Prod.fst then cell r c else cell l c := by
  induction r with
  | nil =>
    rw [List.nil_append]
    exact (if_neg (List.not_mem_nil c)).symm
  | cons p t ih =>
    rw [List.cons_append, cell_cons, cell_cons]
    by_cases hp : p.1 = c
    · rw [if_pos hp, if_pos (show c ∈ (p :: t).map Prod.fst by
        rw [List.map_cons]
        exact hp ▸ List.mem_cons_self p.1 (t.map Prod.fst))]
      rw [if_pos hp]
    · rw [if_neg hp, if_neg hp, ih]
      have hmem : (c ∈ (p :: t).map Prod.fst) ↔ (c ∈ t.map Prod.fst) := by
        rw [List.map_cons, List.mem_cons]
        constructor
        · intro h
          rcases h with h1 | h1
          · exact absurd h1.symm hp
          · exact h1
        · intro h
          exact Or.inr h
      exact (if_congr hmem rfl rfl).symm

theorem cell_filter_keys (r : Row) (cs : List Str) (c : Str) (h : c ∈ cs → False) :
    cell (r.filter (fun p => ¬ (p.1 ∈ cs))) c = cell r c := by
  induction r with
  | nil => rfl
  | cons p t ih =>
    by_cases hp : p.1 ∈ cs
    · have hne : ¬ (p.1 = c) := fun he => h (he ▸ hp)
      rw [List.filter_cons_of_neg (by simpa using hp), ih, cell_cons, if_neg hne]
    · rw [List.filter_cons_of_pos (by simpa using hp), cell_cons, cell_cons, ih]

theorem cell_overwrite (r : Row) (c : Str) (v : PyVal) :
    c ∈ r.map Prod.fst →
    cell (r.map (fun p => if p.1 = c then (p.1, v) else p)) c = v := by
  induction r with
  | nil =>
    intro h
    exact absurd h (List.not_mem_nil c)
  | cons p t ih =>
    intro h
    by_cases hp : p.1 = c
    · rw [List.map_cons, if_pos hp, cell_cons, if_pos hp]
    · rw [List.map_cons, if_neg hp, cell_cons, if_neg hp]
      have h' : c ∈ t.map Prod.fst := by
        rw [List.map_cons] at h
        rcases List.mem_cons.mp h with h1 | h1
        · exact absurd h1.symm hp
        · exact h1
      exact ih h'

theorem getD_map_lt {α β : Type} (l : List α) (f : α → β) (i : Nat) (d : β) (d0 : α) :
    i < l.length → (l.map f).getD i d = f (l.getD i d0) := by
  induction l generalizing i with
  | nil =>
    intro h
    exact absurd h (Nat.not_lt_zero i)
  | cons a t ih =>
    intro h
    cases i with
    | zero => rfl
    | succ j =>
      rw [List.map_cons, List.getD_cons_succ, List.getD_cons_succ]
      exact ih j (Nat.lt_of_succ_lt_succ h)

theorem getD_append_lt {α : Type} (l l' : List α) (i : Nat) (d : α) :
    i < l.length → (l ++ l').getD i d = l.getD i d := by
  induction l generalizing i with
  | nil =>
    intro h
    exact absurd h (Nat.not_lt_zero i)
  | cons a t ih =>
    intro h
    cases i with
    | zero => rfl
    | succ j =>
      rw [List.cons_append, List.getD_cons_succ, List.getD_cons_succ]
      exact ih j (Nat.lt_of_succ_lt_succ h)

theorem getD_append_add {α : Type} (l l' : List α) (k : Nat) (d : α) :
    (l ++ l').getD (l.length + k) d = l'.getD k d := by
  induction l with
  | nil => simp
  | cons a t ih =>
    have : (a :: t).length + k = (t.length + k) + 1 := by simp; omega
    rw [this, List.cons_append, List.getD_cons_succ, ih]

theorem length_flatMap_const {α β : Type} (l : List α) (f : α → List β) (n : Nat)
    (h : ∀ a ∈ l, (f a).length = n) : (l.flatMap f).length = l.length * n := by
  induction l with
  | nil => simp
  | cons a t ih =>
    rw [List.flatMap_cons, List.length_append, h a (List.mem_cons_self a t),
      ih (fun x hx => h x (List.mem_cons_of_mem a hx)), List.length_cons]
    ring

theorem getD_flatMap_const {α β : Type} (l : List α) (f : α → List β) (n i j : Nat)
    (d : β) (dA : α) :
    (∀ a ∈ l, (f a).length = n) → i < l.length → j < n →
    (l.flatMap f).getD (i * n + j) d = (f (l.getD i dA)).getD j d := by
  induction l generalizing i with
  | nil =>
    intro _ hi _
    exact absurd hi (Nat.not_lt_zero i)
  | cons a t ih =>
    intro h hi hj
    cases i with
    | zero =>
      rw [List.flatMap_cons]
      have h0 : (0 : Nat) * n + j = j := by omega
      rw [h0, getD_append_lt _ _ j d (by rw [h a (List.mem_cons_self a t)]; exact hj)]
      rfl
    | succ i' =>
      rw [List.flatMap_cons]
      have hs : (i' + 1) * n + j = (f a).length + (i' * n + j) := by
        rw [h a (List.mem_cons_self a t)]; ring
      rw [hs, getD_append_add, List.getD_cons_succ]
      exact ih i' (fun x hx => h x (List.mem_cons_of_mem a hx))
        (Nat.lt_of_succ_lt_succ hi) hj

theorem map_flatMap_eq {α β γ : Type} (l : List α) (f : α → List β) (g : β → γ) :
    (l.flatMap f).map g = l.flatMap (fun a => (f a).map g) := by
  induction l with
  | nil => rfl
  | cons a t ih => rw [List.flatMap_cons, List.flatMap_cons, List.map_append, ih]

theorem flatMap_congr_mem {α β : Type} (l : List α) (f g : α → List β)
    (h : ∀ a ∈ l, f a = g a) : l.flatMap f = l.flatMap g := by
  induction l with
  | nil => rfl
  | cons a t ih =>
    rw [List.flatMap_cons, List.flatMap_cons, h a (List.mem_cons_self a t),
      ih (fun x hx => h x (List.mem_cons_of_mem a hx))]

theorem pyReplaceDel_of_no_occurrence (s : Str) (c : Char) (h : ∀ x ∈ s, ¬ (x = c)) :
    pyReplaceDel s c = s := by
  induction s with
  | nil => rfl
  | cons a t ih =>
    rw [pyReplaceDel, if_neg (h a (List.mem_cons_self a t)),
      ih (fun x hx => h x (List.mem_cons_of_mem a hx))]

theorem yearLike_strip (y : Str) (h : yearLike y = true) :
    pyReplaceDel y 'a' = stripLeadingNonDigit y := by
  have hdig : ∀ (t : Str), t.all Char.isDigit = true → ∀ x ∈ t, ¬ (x = 'a') := by
    intro t ht x hx he
    have := (List.all_eq_true.mp ht) x hx
    rw [he] at this
    exact Bool.noConfusion this
  cases y with
  | nil => simp [yearLike] at h
  | cons c t =>
    by_cases hc : c = 'a'
    · subst hc
      rw [yearLike, if_pos rfl] at h
      have hall : t.all Char.isDigit = true := by
        simp only [Bool.and_eq_true] at h
        exact h.2
      rw [pyReplaceDel, if_pos rfl, pyReplaceDel_of_no_occurrence t 'a' (hdig t hall)]
      rfl
    · rw [yearLike, if_neg hc] at h
      have hall : (c :: t).all Char.isDigit = true := by
        simp only [Bool.and_eq_true] at h
        exact h.2
      have hcd : c.isDigit = true := (List.all_eq_true.mp hall) c (List.mem_cons_self c t)
      rw [pyReplaceDel_of_no_occurrence (c :: t) 'a' (hdig (c :: t) hall),
        stripLeadingNonDigit, if_pos hcd]

/-- C4 counterexample: pandas melt stacks column-major, so on a 2-row
    frame with year columns [a2020, a2021] the second output row comes
    from the second source row and the first year column, not (as the
    row-major claim predicts) from the first source row and the second
    year column. -/
theorem unpivot_row_order_counterexample :
    (unpivot_years twoByTwoDF (toStr "concepto") [toStr "a2020", toStr "a2021"]).rows.getD 1 [] =
      [(toStr "concepto", .str (toStr "Costes")), (toStr "año", .str (toStr "2020")),
       (toStr "importe", .num (.finite 3))] ∧
    ¬((unpivot_years twoByTwoDF (toStr "concepto") [toStr "a2020", toStr "a2021"]).rows.getD 1 [] =
      [(toStr "concepto", .str (toStr "Ventas")), (toStr "año", .str (toStr "2021")),
       (toStr "importe", .num (.finite 2))]) := by
  exact ⟨by decide, by decide⟩

theorem map_id_of_fix {α : Type} (l : List α) (F : α → α) (h : ∀ x ∈ l, F x = x) :
    l.map F = l := by
  induction l with
  | nil => rfl
  | cons a t ih =>
    rw [List.map_cons, h a (List.mem_cons_self a t),
      ih (fun x hx => h x (List.mem_cons_of_mem a hx))]

theorem unpivot_row_step (idCols : List Str) (r : Row) (yc : Str)
    (h1 : ∀ x ∈ idCols, ¬ (x = toStr "año")) (h2 : ∀ x ∈ idCols, ¬ (x = toStr "importe"))
    (hyl : yearLike yc = true) :
    (((idCols.map (fun c => (c, cell r c))) ++
        [(toStr "año", PyVal.str yc), (toStr "importe", cell r yc)]).map
          (fun p => if p.1 = toStr "año" then
             (p.1, match p.2 with
                   | PyVal.str s => PyVal.str (pyReplaceDel s 'a')
                   | _ => PyVal.num PyFloat.nan)
           else p)).map
      (fun p => if p.1 = toStr "importe" then (p.1, PyVal.num (clean_numeric p.2)) else p) =
    unpivotClaimRow idCols r yc := by
  have hA : ∀ x ∈ idCols.map (fun c => (c, cell r c)),
      (fun p => if p.1 = toStr "año" then
         (p.1, match p.2 with
               | PyVal.str s => PyVal.str (pyReplaceDel s 'a')
               | _ => PyVal.num PyFloat.nan)
       else p) x = x := by
    intro x hx
    rcases List.mem_map.mp hx with ⟨c, hc, rfl⟩
    exact if_neg (h1 c hc)
  have hB : ∀ x ∈ idCols.map (fun c => (c, cell r c)),
      (fun p => if p.1 = toStr "importe" then (p.1, PyVal.num (clean_numeric p.2)) else p) x
        = x := by
    intro x hx
    rcases List.mem_map.mp hx with ⟨c, hc, rfl⟩
    exact if_neg (h2 c hc)
  rw [List.map_append, List.map_append, map_id_of_fix _ _ hA, map_id_of_fix _ _ hB]
  have htail :
      (([(toStr "año", PyVal.str yc), (toStr "importe", cell r yc)]).map
          (fun p => if p.1 = toStr "año" then
             (p.1, match p.2 with
                   | PyVal.str s => PyVal.str (pyReplaceDel s 'a')
                   | _ => PyVal.num PyFloat.nan)
           else p)).map
        (fun p => if p.1 = toStr "importe" then (p.1, PyVal.num (clean_numeric p.2)) else p) =
      [(toStr "año", PyVal.str (pyReplaceDel yc 'a')),
       (toStr "importe", PyVal.num (clean_numeric (cell r yc)))] := rfl
  rw [htail, yearLike_strip yc hyl]
  rfl

/-- C4 amended: for year columns that are present and match the year
    pattern, on a table without pre-existing año/importe columns and with
    a valid concept column, unpivot produces exactly n·k rows, each
    carrying the source row's non-year values plus the stripped year and
    the cleaned amount — but in column-major order (for each year column
    in the order given, one output row per original row in order), as
    pandas melt stacks them. -/
theorem unpivot_years_shape (df : DF) (conceptCol : Str) (yearCols : List Str)
    (hne : yearCols ≠ []) (hcc : conceptCol ∈ df.cols)
    (hy : ∀ y ∈ yearCols, y ∈ df.cols ∧ yearLike y = true)
    (hano : ¬ (toStr "año") ∈ df.cols) (himp : ¬ (toStr "importe") ∈ df.cols) :
    (unpivot_years df conceptCol yearCols).cols =
      df.cols.filter (fun c => ¬ (c ∈ yearCols)) ++ [toStr "año", toStr "importe"] ∧
    (unpivot_years df conceptCol yearCols).rows =
      yearCols.flatMap (fun yc => df.rows.map (fun r =>
        unpivotClaimRow (df.cols.filter (fun c => ¬ (c ∈ yearCols))) r yc)) ∧
    (unpivot_years df conceptCol yearCols).rows.length = df.rows.length * yearCols.length ∧
    (∀ i j, i < yearCols.length → j < df.rows.length →
      (unpivot_years df conceptCol yearCols).rows.getD (i * df.rows.length + j) [] =
        unpivotClaimRow (df.cols.filter (fun c => ¬ (c ∈ yearCols)))
          (df.rows.getD j []) (yearCols.getD i [])) := by
  have h1 : ∀ x ∈ df.cols.filter (fun c => ¬ (c ∈ yearCols)), ¬ (x = toStr "año") :=
    fun x hx he => hano (he ▸ (List.mem_filter.mp hx).1)
  have h2 : ∀ x ∈ df.cols.filter (fun c => ¬ (c ∈ yearCols)), ¬ (x = toStr "importe") :=
    fun x hx he => himp (he ▸ (List.mem_filter.mp hx).1)
  have key : (unpivot_years df conceptCol yearCols).rows =
      yearCols.flatMap (fun yc => df.rows.map (fun r =>
        unpivotClaimRow (df.cols.filter (fun c => ¬ (c ∈ yearCols))) r yc)) := by
    show (((yearCols.flatMap fun yc => df.rows.map (fun r =>
        ((df.cols.filter (fun c => ¬ (c ∈ yearCols))).map (fun c => (c, cell r c))) ++
          [(toStr "año", PyVal.str yc), (toStr "importe", cell r yc)])).map
            (fun r => r.map (fun p => if p.1 = toStr "año" then
               (p.1, match p.2 with
                     | PyVal.str s => PyVal.str (pyReplaceDel s 'a')
                     | _ => PyVal.num PyFloat.nan)
             else p))).map
          (fun r => r.map (fun p => if p.1 = toStr "importe"
             then (p.1, PyVal.num (clean_numeric p.2)) else p))) = _
    rw [List.map_map, map_flatMap_eq]
    apply flatMap_congr_mem
    intro yc hyc
    rw [List.map_map]
    apply List.map_congr_left
    intro r _
    exact unpivot_row_step _ r yc h1 h2 (hy yc hyc).2
  refine ⟨rfl, key, ?_, ?_⟩
  · rw [key]
    exact (length_flatMap_const yearCols _ df.rows.length
      (fun a _ => List.length_map _ _)).trans (Nat.mul_comm _ _)
  · intro i j hi hj
    rw [key, getD_flatMap_const yearCols _ df.rows.length i j [] []
      (fun a _ => List.length_map _ _) hi hj,
      getD_map_lt df.rows _ j [] [] hj]

theorem getD_mem_of_lt {α : Type} (l : List α) (j : Nat) (d : α) :
    j < l.length → l.getD j d ∈ l := by
  induction l generalizing j with
  | nil =>
    intro h
    exact absurd h (Nat.not_lt_zero j)
  | cons a t ih =>
    intro h
    cases j with
    | zero => exact List.mem_cons_self a t
    | succ j' =>
      rw [List.getD_cons_succ]
      exact List.mem_cons_of_mem a (ih j' (Nat.lt_of_succ_lt_succ h))

theorem setCol_of_not_mem (df : DF) (c : Str) (f : Row → PyFloat) (h : ¬ c ∈ df.cols) :
    setCol df c f =
      ⟨df.cols ++ [c], df.rows.map (fun r => r ++ [(c, PyVal.num (f r))])⟩ := by
  unfold setCol
  rw [if_neg h]

theorem setCol_of_mem (df : DF) (c : Str) (f : Row → PyFloat) (h : c ∈ df.cols) :
    setCol df c f =
      ⟨df.cols,
       df.rows.map (fun r => r.map (fun p => if p.1 = c then (p.1, PyVal.num (f r)) else p))⟩ := by
  unfold setCol
  rw [if_pos h]

theorem cell_map_ifkey_ne (r : Row) (cKey : Str) (v : PyVal) (c : Str) (hne : ¬ (c = cKey)) :
    cell (r.map (fun p => if p.1 = cKey then (p.1, v) else p)) c = cell r c := by
  induction r with
  | nil => rfl
  | cons p t ih =>
    rw [List.map_cons]
    by_cases hp : p.1 = cKey
    · rw [if_pos hp, cell_cons, cell_cons]
      have hpc : ¬ (p.1 = c) := fun he => hne ((he.symm).trans hp)
      rw [if_neg hpc, if_neg hpc, ih]
    · rw [if_neg hp, cell_cons, cell_cons]
      by_cases hpc : p.1 = c
      · rw [if_pos hpc, if_pos hpc]
      · rw [if_neg hpc, if_neg hpc, ih]

theorem adhRow1_keys (dc : Str) (r : Row) (cols : List Str) (hkeys : r.map Prod.fst = cols) :
    (adhRow1 dc r).map Prod.fst = cols ++ [toStr "debe_clean"] := by
  unfold adhRow1
  rw [List.map_append, hkeys]
  rfl

theorem adhRow2_keys (dc cc : Str) (r : Row) (cols : List Str)
    (hkeys : r.map Prod.fst = cols) :
    (adhRow2 dc cc r).map Prod.fst = (cols ++ [toStr "debe_clean"]) ++ [toStr "haber_clean"] := by
  unfold adhRow2
  rw [List.map_append, adhRow1_keys dc r cols hkeys]
  rfl

theorem adhRow1_cell_of_mem (dc : Str) (r : Row) (cols : List Str)
    (hkeys : r.map Prod.fst = cols) (c : Str) (hc : c ∈ cols) :
    cell (adhRow1 dc r) c = cell r c := by
  unfold adhRow1
  rw [cell_append, if_pos (by rw [hkeys]; exact hc)]

theorem adhRow2_cell_of_mem (dc cc : Str) (r : Row) (cols : List Str)
    (hkeys : r.map Prod.fst = cols) (c : Str) (hc : c ∈ cols) :
    cell (adhRow2 dc cc r) c = cell r c := by
  unfold adhRow2
  rw [cell_append, if_pos (by rw [adhRow1_keys dc r cols hkeys]; exact List.mem_append_left _ hc),
    adhRow1_cell_of_mem dc r cols hkeys c hc]

theorem adhRow2_cell_dcl (dc cc : Str) (r : Row) (cols : List Str)
    (hkeys : r.map Prod.fst = cols) (hdclN : ¬ (toStr "debe_clean") ∈ cols) :
    cell (adhRow2 dc cc r) (toStr "debe_clean") = PyVal.num (clean_numeric (cell r dc)) := by
  unfold adhRow2
  rw [cell_append, if_pos (by
    rw [adhRow1_keys dc r cols hkeys]
    exact List.mem_append_right _ (List.mem_cons_self _ _))]
  unfold adhRow1
  rw [cell_append, if_neg (by rw [hkeys]; exact hdclN), cell_cons, if_pos rfl]

theorem adhRow2_cell_hcl (dc cc : Str) (r : Row) (cols : List Str)
    (hkeys : r.map Prod.fst = cols) (hhclN : ¬ (toStr "haber_clean") ∈ cols) :
    cell (adhRow2 dc cc r) (toStr "haber_clean") =
      PyVal.num (clean_numeric (cell (adhRow1 dc r) cc)) := by
  unfold adhRow2
  rw [cell_append, if_neg (by
    rw [adhRow1_keys dc r cols hkeys]
    intro hmem
    rcases List.mem_append.mp hmem with h | h
    · exact hhclN h
    · rcases List.mem_cons.mp h with h | h
      · exact absurd h (by decide)
      · exact absurd h (List.not_mem_nil _)), cell_cons, if_pos rfl]

theorem adhAmount_eq (dc cc : Str) (r : Row) (cols : List Str)
    (hkeys : r.map Prod.fst = cols) (hcc2 : cc ∈ cols)
    (hdclN : ¬ (toStr "debe_clean") ∈ cols) (hhclN : ¬ (toStr "haber_clean") ∈ cols) :
    adhAmount dc cc r =
      PyFloat.sub (clean_numeric (cell r dc)) (clean_numeric (cell r cc)) := by
  unfold adhAmount
  rw [adhRow2_cell_dcl dc cc r cols hkeys hdclN, adhRow2_cell_hcl dc cc r cols hkeys hhclN,
    adhRow1_cell_of_mem dc r cols hkeys cc hcc2]
  rfl

theorem setCol_cols_not_mem (df : DF) (c : Str) (f : Row → PyFloat) (h : ¬ c ∈ df.cols) :
    (setCol df c f).cols = df.cols ++ [c] := by
  rw [setCol_of_not_mem df c f h]

theorem setCol_rows_not_mem (df : DF) (c : Str) (f : Row → PyFloat) (h : ¬ c ∈ df.cols) :
    (setCol df c f).rows = df.rows.map (fun r => r ++ [(c, PyVal.num (f r))]) := by
  rw [setCol_of_not_mem df c f h]

theorem setCol_cols_mem (df : DF) (c : Str) (f : Row → PyFloat) (h : c ∈ df.cols) :
    (setCol df c f).cols = df.cols := by
  rw [setCol_of_mem df c f h]

theorem setCol_rows_mem (df : DF) (c : Str) (f : Row → PyFloat) (h : c ∈ df.cols) :
    (setCol df c f).rows =
      df.rows.map (fun r => r.map (fun p => if p.1 = c then (p.1, PyVal.num (f r)) else p)) := by
  rw [setCol_of_mem df c f h]

theorem hcl_not_in_ext (df : DF) (hhclN : ¬ (toStr "haber_clean") ∈ df.cols) :
    ¬ (toStr "haber_clean") ∈ df.cols ++ [toStr "debe_clean"] := by
  intro hmem
  rcases List.mem_append.mp hmem with h | h
  · exact hhclN h
  · rcases List.mem_cons.mp h with h | h
    · exact absurd h (by decide)
    · exact absurd h (List.not_mem_nil _)

theorem imp_not_in_ext (df : DF) (himpN : ¬ (toStr "importe") ∈ df.cols) :
    ¬ (toStr "importe") ∈ (df.cols ++ [toStr "debe_clean"]) ++ [toStr "haber_clean"] := by
  intro hmem
  rcases List.mem_append.mp hmem with h | h
  · rcases List.mem_append.mp h with h | h
    · exact himpN h
    · rcases List.mem_cons.mp h with h | h
      · exact absurd h (by decide)
      · exact absurd h (List.not_mem_nil _)
  · rcases List.mem_cons.mp h with h | h
    · exact absurd h (by decide)
    · exact absurd h (List.not_mem_nil _)

theorem adh_stage_cols (df : DF) (dc cc : Str)
    (hdclN : ¬ (toStr "debe_clean") ∈ df.cols) (hhclN : ¬ (toStr "haber_clean") ∈ df.cols) :
    (setCol (setCol df (toStr "debe_clean") (fun r => clean_numeric (cell r dc)))
        (toStr "haber_clean") (fun r => clean_numeric (cell r cc))).cols =
      (df.cols ++ [toStr "debe_clean"]) ++ [toStr "haber_clean"] := by
  have hc1 := setCol_cols_not_mem df (toStr "debe_clean")
    (fun r => clean_numeric (cell r dc)) hdclN
  have h2 : ¬ (toStr "haber_clean") ∈
      (setCol df (toStr "debe_clean") (fun r => clean_numeric (cell r dc))).cols := by
    rw [hc1]
    exact hcl_not_in_ext df hhclN
  rw [setCol_cols_not_mem _ _ _ h2, hc1]

theorem adh_stage_rows (df : DF) (dc cc : Str)
    (hdclN : ¬ (toStr "debe_clean") ∈ df.cols) (hhclN : ¬ (toStr "haber_clean") ∈ df.cols) :
    (setCol (setCol df (toStr "debe_clean") (fun r => clean_numeric (cell r dc)))
        (toStr "haber_clean") (fun r => clean_numeric (cell r cc))).rows =
      df.rows.map (adhRow2 dc cc) := by
  have hc1 := setCol_cols_not_mem df (toStr "debe_clean")
    (fun r => clean_numeric (cell r dc)) hdclN
  have h2 : ¬ (toStr "haber_clean") ∈
      (setCol df (toStr "debe_clean") (fun r => clean_numeric (cell r dc))).cols := by
    rw [hc1]
    exact hcl_not_in_ext df hhclN
  rw [setCol_rows_not_mem _ _ _ h2,
    setCol_rows_not_mem df _ _ hdclN, List.map_map]
  rfl

theorem adh_rows_A (df : DF) (dc cc : Str)
    (hdclN : ¬ (toStr "debe_clean") ∈ df.cols) (hhclN : ¬ (toStr "haber_clean") ∈ df.cols)
    (himpN : ¬ (toStr "importe") ∈ df.cols) :
    (apply_debe_haber df dc cc).rows =
      df.rows.map (fun r => (adhRow3A dc cc r).filter (fun p => ¬ (p.1 ∈ adhKeep dc cc))) := by
  show (dropColumns (setCol (setCol (setCol df _ _) _ _) _ _) _).rows = _
  have h3 : ¬ (toStr "importe") ∈
      (setCol (setCol df (toStr "debe_clean") (fun r => clean_numeric (cell r dc)))
        (toStr "haber_clean") (fun r => clean_numeric (cell r cc))).cols := by
    rw [adh_stage_cols df dc cc hdclN hhclN]
    exact imp_not_in_ext df himpN
  unfold dropColumns
  show (List.map _ (setCol _ _ _).rows) = _
  rw [setCol_rows_not_mem _ _ _ h3, adh_stage_rows df dc cc hdclN hhclN,
    List.map_map, List.map_map]
  rfl

theorem adh_cols_A (df : DF) (dc cc : Str)
    (hdclN : ¬ (toStr "debe_clean") ∈ df.cols) (hhclN : ¬ (toStr "haber_clean") ∈ df.cols)
    (himpN : ¬ (toStr "importe") ∈ df.cols) :
    (apply_debe_haber df dc cc).cols =
      (((df.cols ++ [toStr "debe_clean"]) ++ [toStr "haber_clean"]) ++ [toStr "importe"]).filter
        (fun c => ¬ (c ∈ adhKeep dc cc)) := by
  show (dropColumns (setCol (setCol (setCol df _ _) _ _) _ _) _).cols = _
  have h3 : ¬ (toStr "importe") ∈
      (setCol (setCol df (toStr "debe_clean") (fun r => clean_numeric (cell r dc)))
        (toStr "haber_clean") (fun r => clean_numeric (cell r cc))).cols := by
    rw [adh_stage_cols df dc cc hdclN hhclN]
    exact imp_not_in_ext df himpN
  unfold dropColumns
  show List.filter _ (setCol _ _ _).cols = _
  rw [setCol_cols_not_mem _ _ _ h3, adh_stage_cols df dc cc hdclN hhclN]
  rfl

theorem adh_rows_B (df : DF) (dc cc : Str)
    (hdclN : ¬ (toStr "debe_clean") ∈ df.cols) (hhclN : ¬ (toStr "haber_clean") ∈ df.cols)
    (himp : (toStr "importe") ∈ df.cols) :
    (apply_debe_haber df dc cc).rows =
      df.rows.map (fun r => (adhRow3B dc cc r).filter (fun p => ¬ (p.1 ∈ adhKeep dc cc))) := by
  show (dropColumns (setCol (setCol (setCol df _ _) _ _) _ _) _).rows = _
  have h3 : (toStr "importe") ∈
      (setCol (setCol df (toStr "debe_clean") (fun r => clean_numeric (cell r dc)))
        (toStr "haber_clean") (fun r => clean_numeric (cell r cc))).cols := by
    rw [adh_stage_cols df dc cc hdclN hhclN]
    exact List.mem_append_left _ (List.mem_append_left _ himp)
  unfold dropColumns
  show (List.map _ (setCol _ _ _).rows) = _
  rw [setCol_rows_mem _ _ _ h3, adh_stage_rows df dc cc hdclN hhclN,
    List.map_map, List.map_map]
  rfl

theorem adh_cols_B (df : DF) (dc cc : Str)
    (hdclN : ¬ (toStr "debe_clean") ∈ df.cols) (hhclN : ¬ (toStr "haber_clean") ∈ df.cols)
    (himp : (toStr "importe") ∈ df.cols) :
    (apply_debe_haber df dc cc).cols =
      ((df.cols ++ [toStr "debe_clean"]) ++ [toStr "haber_clean"]).filter
        (fun c => ¬ (c ∈ adhKeep dc cc)) := by
  show (dropColumns (setCol (setCol (setCol df _ _) _ _) _ _) _).cols = _
  have h3 : (toStr "importe") ∈
      (setCol (setCol df (toStr "debe_clean") (fun r => clean_numeric (cell r dc)))
        (toStr "haber_clean") (fun r => clean_numeric (cell r cc))).cols := by
    rw [adh_stage_cols df dc cc hdclN hhclN]
    exact List.mem_append_left _ (List.mem_append_left _ himp)
  unfold dropColumns
  show List.filter _ (setCol _ _ _).cols = _
  rw [setCol_cols_mem _ _ _ h3, adh_stage_cols df dc cc hdclN hhclN]
  rfl

theorem count_filter_keep (l : List Str) (cs : List Str) (c : Str) (h : ¬ c ∈ cs) :
    (l.filter (fun x => ¬ (x ∈ cs))).count c = l.count c := by
  induction l with
  | nil => rfl
  | cons a t ih =>
    by_cases ha : a ∈ cs
    · rw [List.filter_cons_of_neg (by simpa using ha), ih, List.count_cons]
      have hne : (a == c) = false := beq_false_of_ne (fun he => h (he ▸ ha))
      rw [hne]
      simp
    · rw [List.filter_cons_of_pos (by simpa using ha), List.count_cons, List.count_cons, ih]

theorem imp_not_in_keep (dc cc : Str) (hdcImp : ¬ (dc = toStr "importe"))
    (hccImp : ¬ (cc = toStr "importe")) :
    ¬ (toStr "importe") ∈ adhKeep dc cc := by
  intro hm
  unfold adhKeep at hm
  rcases List.mem_cons.mp hm with h | hm
  · exact absurd h (by decide)
  rcases List.mem_cons.mp hm with h | hm
  · exact absurd h (by decide)
  rcases List.mem_cons.mp hm with h | hm
  · exact hdcImp h.symm
  rcases List.mem_cons.mp hm with h | hm
  · exact hccImp h.symm
  · exact absurd hm (List.not_mem_nil _)

theorem not_mem_filter_keep (dc cc : Str) (l : List Str) (x : Str) (hx : x ∈ adhKeep dc cc) :
    ¬ x ∈ l.filter (fun c => ¬ (c ∈ adhKeep dc cc)) := by
  intro hmem
  exact (of_decide_eq_true (List.mem_filter.mp hmem).2) hx

theorem adh_cell_importe_A (dc cc : Str) (r : Row) (cols : List Str)
    (hkeys : r.map Prod.fst = cols)
    (himpN : ¬ (toStr "importe") ∈ cols)
    (hdcImp : ¬ (dc = toStr "importe")) (hccImp : ¬ (cc = toStr "importe")) :
    cell ((adhRow3A dc cc r).filter (fun p => ¬ (p.1 ∈ adhKeep dc cc))) (toStr "importe") =
      PyVal.num (adhAmount dc cc r) := by
  rw [cell_filter_keys _ _ _ (imp_not_in_keep dc cc hdcImp hccImp)]
  unfold adhRow3A
  rw [cell_append, if_neg (by
    rw [adhRow2_keys dc cc r cols hkeys]
    intro hmem
    rcases List.mem_append.mp hmem with h | h
    · rcases List.mem_append.mp h with h | h
      · exact himpN h
      · rcases List.mem_cons.mp h with h | h
        · exact absurd h (by decide)
        · exact absurd h (List.not_mem_nil _)
    · rcases List.mem_cons.mp h with h | h
      · exact absurd h (by decide)
      · exact absurd h (List.not_mem_nil _)), cell_cons, if_pos rfl]

theorem adh_cell_importe_B (dc cc : Str) (r : Row) (cols : List Str)
    (hkeys : r.map Prod.fst = cols)
    (himp : (toStr "importe") ∈ cols)
    (hdcImp : ¬ (dc = toStr "importe")) (hccImp : ¬ (cc = toStr "importe")) :
    cell ((adhRow3B dc cc r).filter (fun p => ¬ (p.1 ∈ adhKeep dc cc))) (toStr "importe") =
      PyVal.num (adhAmount dc cc r) := by
  rw [cell_filter_keys _ _ _ (imp_not_in_keep dc cc hdcImp hccImp)]
  unfold adhRow3B
  exact cell_overwrite _ _ _ (by
    rw [adhRow2_keys dc cc r cols hkeys]
    exact List.mem_append_left _ (List.mem_append_left _ himp))

/-- C5 amended: on a table containing the given debit and credit columns,
    neither of which is named with the canonical amount name importe, and
    without pre-existing intermediate columns debe_clean/haber_clean,
    merge yields per-row amount = clean(debit) - clean(credit), drops the
    debit, credit and intermediate columns, and the pinned rows give
    amounts 100.0 and -50.0. -/
theorem merge_debit_credit_amounts (df : DF) (dc cc : Str)
    (hwf : WF df) (hdc : dc ∈ df.cols) (hcc2 : cc ∈ df.cols)
    (hdcImp : ¬ (dc = toStr "importe")) (hccImp : ¬ (cc = toStr "importe"))
    (hdclN : ¬ (toStr "debe_clean") ∈ df.cols) (hhclN : ¬ (toStr "haber_clean") ∈ df.cols) :
    (apply_debe_haber df dc cc).rows.length = df.rows.length ∧
    (∀ j, j < df.rows.length →
      cell ((apply_debe_haber df dc cc).rows.getD j []) (toStr "importe") =
        PyVal.num (PyFloat.sub (clean_numeric (cell (df.rows.getD j []) dc))
                               (clean_numeric (cell (df.rows.getD j []) cc)))) ∧
    ¬ dc ∈ (apply_debe_haber df dc cc).cols ∧
    ¬ cc ∈ (apply_debe_haber df dc cc).cols ∧
    ¬ (toStr "debe_clean") ∈ (apply_debe_haber df dc cc).cols ∧
    ¬ (toStr "haber_clean") ∈ (apply_debe_haber df dc cc).cols ∧
    cell ((apply_debe_haber debeHaberDF (toStr "debe") (toStr "haber")).rows.getD 0 [])
      (toStr "importe") = PyVal.num (PyFloat.finite 100) ∧
    cell ((apply_debe_haber debeHaberDF (toStr "debe") (toStr "haber")).rows.getD 1 [])
      (toStr "importe") = PyVal.num (PyFloat.finite (-50)) := by
  refine ⟨?_, ?_, ?_, ?_, ?_, ?_, by decide, by decide⟩
  · by_cases himp : (toStr "importe") ∈ df.cols
    · rw [adh_rows_B df dc cc hdclN hhclN himp]
      exact List.length_map _ _
    · rw [adh_rows_A df dc cc hdclN hhclN himp]
      exact List.length_map _ _
  · intro j hj
    have hkeys : (df.rows.getD j []).map Prod.fst = df.cols :=
      hwf _ (getD_mem_of_lt df.rows j [] hj)
    by_cases himp : (toStr "importe") ∈ df.cols
    · rw [adh_rows_B df dc cc hdclN hhclN himp, getD_map_lt df.rows _ j [] [] hj]
      exact (adh_cell_importe_B dc cc _ df.cols hkeys himp hdcImp hccImp).trans
        (congrArg PyVal.num (adhAmount_eq dc cc _ df.cols hkeys hcc2 hdclN hhclN))
    · rw [adh_rows_A df dc cc hdclN hhclN himp, getD_map_lt df.rows _ j [] [] hj]
      exact (adh_cell_importe_A dc cc _ df.cols hkeys himp hdcImp hccImp).trans
        (congrArg PyVal.num (adhAmount_eq dc cc _ df.cols hkeys hcc2 hdclN hhclN))
  · by_cases himp : (toStr "importe") ∈ df.cols
    · rw [adh_cols_B df dc cc hdclN hhclN himp]
      exact not_mem_filter_keep dc cc _ dc (by simp [adhKeep])
    · rw [adh_cols_A df dc cc hdclN hhclN himp]
      exact not_mem_filter_keep dc cc _ dc (by simp [adhKeep])
  · by_cases himp : (toStr "importe") ∈ df.cols
    · rw [adh_cols_B df dc cc hdclN hhclN himp]
      exact not_mem_filter_keep dc cc _ cc (by simp [adhKeep])
    · rw [adh_cols_A df dc cc hdclN hhclN himp]
      exact not_mem_filter_keep dc cc _ cc (by simp [adhKeep])
  · by_cases himp : (toStr "importe") ∈ df.cols
    · rw [adh_cols_B df dc cc hdclN hhclN himp]
      exact not_mem_filter_keep dc cc _ _ (by simp [adhKeep])
    · rw [adh_cols_A df dc cc hdclN hhclN himp]
      exact not_mem_filter_keep dc cc _ _ (by simp [adhKeep])
  · by_cases himp : (toStr "importe") ∈ df.cols
    · rw [adh_cols_B df dc cc hdclN hhclN himp]
      exact not_mem_filter_keep dc cc _ _ (by simp [adhKeep])
    · rw [adh_cols_A df dc cc hdclN hhclN himp]
      exact not_mem_filter_keep dc cc _ _ (by simp [adhKeep])

theorem merge_debit_credit_amounts_witness :
    cell ((apply_debe_haber debeHaberDF (toStr "debe") (toStr "haber")).rows.getD 0 [])
        (toStr "importe") =
      PyVal.num (PyFloat.sub
        (clean_numeric (cell (debeHaberDF.rows.getD 0 []) (toStr "debe")))
        (clean_numeric (cell (debeHaberDF.rows.getD 0 []) (toStr "haber")))) :=
  (merge_debit_credit_amounts debeHaberDF (toStr "debe") (toStr "haber") (by decide) (by decide)
    (by decide) (by decide) (by decide) (by decide) (by decide)).2.1 0 (by decide)

/-- C5 counterexample: when the debit column is itself named importe, the
    drop removes the computed amount column entirely, so the result has
    no importe column and the per-row amount equation fails. -/
theorem merge_debit_named_importe_counterexample :
    (toStr "importe") ∈ debitNamedImporteDF.cols ∧ (toStr "haber") ∈ debitNamedImporteDF.cols ∧
    ¬ (toStr "importe") ∈
      (apply_debe_haber debitNamedImporteDF (toStr "importe") (toStr "haber")).cols ∧
    ¬ (cell ((apply_debe_haber debitNamedImporteDF (toStr "importe") (toStr "haber")).rows.getD 0 [])
        (toStr "importe") =
      PyVal.num (PyFloat.sub
        (clean_numeric (cell (debitNamedImporteDF.rows.getD 0 []) (toStr "importe")))
        (clean_numeric (cell (debitNamedImporteDF.rows.getD 0 []) (toStr "haber"))))) := by
  exact ⟨by decide, by decide, by decide, by decide⟩

/-- C10 amended: on a table without pre-existing debe_clean/haber_clean
    columns and whose debit/credit columns are not named importe, the
    merge preserves the row count, keeps every column other than debit,
    credit and importe with unchanged values, and a pre-existing importe
    column is overwritten in place with the computed amounts rather than
    duplicated. -/
theorem merge_debit_credit_frame (df : DF) (dc cc : Str)
    (hwf : WF df) (hdc : dc ∈ df.cols) (hcc2 : cc ∈ df.cols)
    (hdcImp : ¬ (dc = toStr "importe")) (hccImp : ¬ (cc = toStr "importe"))
    (hdclN : ¬ (toStr "debe_clean") ∈ df.cols) (hhclN : ¬ (toStr "haber_clean") ∈ df.cols) :
    (apply_debe_haber df dc cc).rows.length = df.rows.length ∧
    (∀ c ∈ df.cols, ¬ (c = dc) → ¬ (c = cc) → ¬ (c = toStr "importe") →
      c ∈ (apply_debe_haber df dc cc).cols ∧
      ∀ j, j < df.rows.length →
        cell ((apply_debe_haber df dc cc).rows.getD j []) c = cell (df.rows.getD j []) c) ∧
    ((toStr "importe") ∈ df.cols →
      (apply_debe_haber df dc cc).cols.count (toStr "importe") =
        df.cols.count (toStr "importe") ∧
      ∀ j, j < df.rows.length →
        cell ((apply_debe_haber df dc cc).rows.getD j []) (toStr "importe") =
          PyVal.num (PyFloat.sub (clean_numeric (cell (df.rows.getD j []) dc))
                                 (clean_numeric (cell (df.rows.getD j []) cc)))) := by
  refine ⟨?_, ?_, ?_⟩
  · by_cases himp : (toStr "importe") ∈ df.cols
    · rw [adh_rows_B df dc cc hdclN hhclN himp]
      exact List.length_map _ _
    · rw [adh_rows_A df dc cc hdclN hhclN himp]
      exact List.length_map _ _
  · intro c hcmem hcdc hccc hcimp
    have hckeep : ¬ c ∈ adhKeep dc cc := by
      intro hm
      unfold adhKeep at hm
      rcases List.mem_cons.mp hm with h | hm
      · exact hdclN (h ▸ hcmem)
      rcases List.mem_cons.mp hm with h | hm
      · exact hhclN (h ▸ hcmem)
      rcases List.mem_cons.mp hm with h | hm
      · exact hcdc h
      rcases List.mem_cons.mp hm with h | hm
      · exact hccc h
      · exact absurd hm (List.not_mem_nil _)
    constructor
    · by_cases himp : (toStr "importe") ∈ df.cols
      · rw [adh_cols_B df dc cc hdclN hhclN himp]
        exact List.mem_filter.mpr
          ⟨List.mem_append_left _ (List.mem_append_left _ hcmem), decide_eq_true hckeep⟩
      · rw [adh_cols_A df dc cc hdclN hhclN himp]
        exact List.mem_filter.mpr
          ⟨List.mem_append_left _ (List.mem_append_left _ (List.mem_append_left _ hcmem)),
           decide_eq_true hckeep⟩
    · intro j hj
      have hkeys : (df.rows.getD j []).map Prod.fst = df.cols :=
        hwf _ (getD_mem_of_lt df.rows j [] hj)
      by_cases himp : (toStr "importe") ∈ df.cols
      · rw [adh_rows_B df dc cc hdclN hhclN himp, getD_map_lt df.rows _ j [] [] hj,
          cell_filter_keys _ _ _ hckeep]
        unfold adhRow3B
        rw [cell_map_ifkey_ne _ _ _ _ hcimp]
        exact adhRow2_cell_of_mem dc cc _ df.cols hkeys c hcmem
      · rw [adh_rows_A df dc cc hdclN hhclN himp, getD_map_lt df.rows _ j [] [] hj,
          cell_filter_keys _ _ _ hckeep]
        unfold adhRow3A
        rw [cell_append, if_pos (by
          rw [adhRow2_keys dc cc _ df.cols hkeys]
          exact List.mem_append_left _ (List.mem_append_left _ hcmem))]
        exact adhRow2_cell_of_mem dc cc _ df.cols hkeys c hcmem
  · intro himp
    constructor
    · rw [adh_cols_B df dc cc hdclN hhclN himp,
        count_filter_keep _ _ _ (imp_not_in_keep dc cc hdcImp hccImp),
        List.count_append, List.count_append]
      have h1 : List.count (toStr "importe") [toStr "debe_clean"] = 0 := by decide
      have h2 : List.count (toStr "importe") [toStr "haber_clean"] = 0 := by decide
      rw [h1, h2]
      omega
    · intro j hj
      have hkeys : (df.rows.getD j []).map Prod.fst = df.cols :=
        hwf _ (getD_mem_of_lt df.rows j [] hj)
      rw [adh_rows_B df dc cc hdclN hhclN himp, getD_map_lt df.rows _ j [] [] hj]
      exact (adh_cell_importe_B dc cc _ df.cols hkeys himp hdcImp hccImp).trans
        (congrArg PyVal.num (adhAmount_eq dc cc _ df.cols hkeys hcc2 hdclN hhclN))

theorem merge_debit_credit_frame_witness :
    (toStr "categoria") ∈ (apply_debe_haber mixedDebeDF (toStr "debe") (toStr "haber")).cols ∧
    cell ((apply_debe_haber mixedDebeDF (toStr "debe") (toStr "haber")).rows.getD 0 [])
        (toStr "categoria") = cell (mixedDebeDF.rows.getD 0 []) (toStr "categoria") ∧
    (apply_debe_haber mixedDebeDF (toStr "debe") (toStr "haber")).cols.count (toStr "importe") =
      mixedDebeDF.cols.count (toStr "importe") :=
  have h := merge_debit_credit_frame mixedDebeDF (toStr "debe") (toStr "haber") (by decide)
    (by decide) (by decide) (by decide) (by decide) (by decide) (by decide)
  ⟨(h.2.1 (toStr "categoria") (by decide) (by decide) (by decide) (by decide)).1,
   (h.2.1 (toStr "categoria") (by decide) (by decide) (by decide) (by decide)).2 0 (by decide),
   (h.2.2 (by decide)).1⟩

/-- C10 counterexample: a pre-existing column named debe_clean — which is
    neither the debit column, the credit column, nor the amount column —
    does not keep its value: it is silently overwritten and dropped. -/
theorem merge_destroys_preexisting_intermediate :
    (toStr "debe_clean") ∈ preexistingCleanDF.cols ∧
    ¬ ((toStr "debe_clean") = toStr "debe") ∧ ¬ ((toStr "debe_clean") = toStr "haber") ∧
    ¬ ((toStr "debe_clean") = toStr "importe") ∧
    ¬ (toStr "debe_clean") ∈
      (apply_debe_haber preexistingCleanDF (toStr "debe") (toStr "haber")).cols := by
  exact ⟨by decide, by decide, by decide, by decide, by decide⟩

theorem unpivot_years_shape_witness :
    (unpivot_years twoByTwoDF (toStr "concepto") [toStr "a2020", toStr "a2021"]).rows.length =
      twoByTwoDF.rows.length * 2 :=
  (unpivot_years_shape twoByTwoDF (toStr "concepto") [toStr "a2020", toStr "a2021"]
    (by decide) (by decide) (by decide) (by decide) (by decide)).2.2.1

theorem stepUnpivot_explode (m : ColumnMapping) (r : NormalizationRules) (df : DF)
    (fmt : String) (conf : ℚ) (w : List String) (t : List TLog) :
    stepUnpivot m r ⟨df, fmt, conf, w, t⟩ =
      ⟨(if r.unpivot then (unpivotCore m r df).1 else df),
       (if r.unpivot then ((unpivotCore m r df).2.1).getD fmt else fmt),
       conf,
       w ++ (if r.unpivot then (unpivotCore m r df).2.2.1 else []),
       t ++ (if r.unpivot then (unpivotCore m r df).2.2.2 else [])⟩ := by
  by_cases h : r.unpivot = true
  · simp only [stepUnpivot, if_pos h]
  · simp only [stepUnpivot, if_neg h, List.append_nil]

theorem stepInvert_explode (m : ColumnMapping) (r : NormalizationRules) (df : DF)
    (fmt : String) (conf : ℚ) (w : List String) (t : List TLog) :
    stepInvert m r ⟨df, fmt, conf, w, t⟩ =
      ⟨(if r.invert_negatives then (invertCore m df).1 else df),
       fmt, conf, w,
       t ++ (if r.invert_negatives then (invertCore m df).2 else [])⟩ := by
  by_cases h : r.invert_negatives = true
  · simp only [stepInvert, if_pos h]
  · simp only [stepInvert, if_neg h, List.append_nil]

theorem stepRename_explode (m : ColumnMapping) (df : DF)
    (fmt : String) (conf : ℚ) (w : List String) (t : List TLog) :
    stepRename m ⟨df, fmt, conf, w, t⟩ =
      ⟨(renameCore m df).1, fmt, conf, w, t ++ (renameCore m df).2⟩ := rfl

theorem stepValidate_explode (df : DF) (fmt : String) (conf : ℚ) (w : List String)
    (t : List TLog) :
    stepValidate ⟨df, fmt, conf, w, t⟩ =
      ⟨df, fmt, (validateCore df fmt conf).1, w ++ (validateCore df fmt conf).2, t⟩ := rfl

theorem tailFrom_warns (m : ColumnMapping) (r : NormalizationRules) (df : DF)
    (fmt : String) (conf : ℚ) (t : List TLog) (w : List String) :
    assembleResult (stepValidate (stepRename m (stepInvert m r ⟨df, fmt, conf, w, t⟩))) =
      { assembleResult (stepValidate (stepRename m (stepInvert m r ⟨df, fmt, conf, [], t⟩))) with
        warnings :=
          w ++ (assembleResult (stepValidate
                  (stepRename m (stepInvert m r ⟨df, fmt, conf, [], t⟩)))).warnings } := by
  rw [stepInvert_explode, stepInvert_explode, stepRename_explode, stepRename_explode,
    stepValidate_explode, stepValidate_explode]
  simp [assembleResult, List.append_assoc]

theorem finishFrom_warns (m : ColumnMapping) (r : NormalizationRules) (df : DF)
    (fmt : String) (conf : ℚ) (t : List TLog) (w : List String) :
    finishFrom m r ⟨df, fmt, conf, w, t⟩ =
      { finishFrom m r ⟨df, fmt, conf, [], t⟩ with
        warnings := w ++ (finishFrom m r ⟨df, fmt, conf, [], t⟩).warnings } := by
  unfold finishFrom
  rw [stepUnpivot_explode, stepUnpivot_explode, stepInvert_explode, stepInvert_explode,
    stepRename_explode, stepRename_explode, stepValidate_explode, stepValidate_explode]
  simp [assembleResult, List.append_assoc]

theorem stepDebe_unmet (m : ColumnMapping) (r : NormalizationRules) (st : PState)
    (h1 : r.debe_haber = true)
    (h2 : ¬(truthy m.debit_column = true ∧ truthy m.credit_column = true ∧
      (m.debit_column.getD []) ∈ st.df.cols ∧ (m.credit_column.getD []) ∈ st.df.cols)) :
    stepDebe m r st = { st with warns := st.warns ++ [warnDebeNotFound] } := by
  simp only [stepDebe, debeCore]
  rw [if_pos h1, if_neg h2]
  simp

theorem stepUnpivot_skip_mapped_absent (m : ColumnMapping) (r : NormalizationRules) (st : PState)
    (h1 : r.unpivot = true)
    (hy : ¬((if r.unpivot_year_columns = [] then st.df.cols.filter yearLike
             else r.unpivot_year_columns) = []))
    (h3 : truthy m.concept_column = true)
    (h4 : ¬ (m.concept_column.getD []) ∈ st.df.cols) :
    stepUnpivot m r st = st := by
  simp only [stepUnpivot, unpivotCore]
  rw [if_pos h1, if_neg (fun hc => h4 hc.2.2), if_neg (fun hc => hc.2 h3)]
  simp

theorem stepUnpivot_skip_no_years (m : ColumnMapping) (r : NormalizationRules) (st : PState)
    (h1 : r.unpivot = true)
    (hy : (if r.unpivot_year_columns = [] then st.df.cols.filter yearLike
           else r.unpivot_year_columns) = []) :
    stepUnpivot m r st = st := by
  simp only [stepUnpivot, unpivotCore]
  rw [if_pos h1, if_neg (fun hc => hc.1 hy), if_neg (fun hc => hc.1 hy)]
  simp

theorem stepUnpivot_warn_no_concept (m : ColumnMapping) (r : NormalizationRules) (st : PState)
    (h1 : r.unpivot = true)
    (hy : ¬((if r.unpivot_year_columns = [] then st.df.cols.filter yearLike
             else r.unpivot_year_columns) = []))
    (h3 : ¬(truthy m.concept_column = true))
    (h5 : st.df.cols.find? (fun col => conceptTerms.any (fun t => hasSub col t)) =
      Option.none) :
    stepUnpivot m r st = { st with warns := st.warns ++ [warnUnpivotNoConcept] } := by
  simp only [stepUnpivot, unpivotCore]
  rw [if_pos h1, if_neg (fun hc => h3 hc.2.1), if_pos ⟨hy, h3⟩, h5]
  simp

/-- C7 counterexample: unpivot requested with a mapped concept column that
    does not exist in the table: the step is skipped with NO warning (the
    only warning in the result is the detector's unknown-format message),
    although the claim requires a warning to be appended. -/
theorem unpivot_silent_skip_counterexample :
    silentSkipRules.unpivot = true ∧
    silentSkipMapping.concept_column = some (toStr "zzz") ∧
    ¬ (toStr "zzz") ∈
      (DataNormalizer.normalize silentSkipData silentSkipMapping silentSkipRules).columns ∧
    (DataNormalizer.normalize silentSkipData silentSkipMapping silentSkipRules).warnings =
      [warnUnknownFormat] ∧
    ¬ warnUnpivotNoConcept ∈
      (DataNormalizer.normalize silentSkipData silentSkipMapping silentSkipRules).warnings := by
  exact ⟨by decide, by decide, by decide, by decide, by decide⟩

/-- C7 amended: when the debit/credit merge is requested but the mapped
    columns do not resolve, the step appends its warning, leaves the
    frame unchanged and the pipeline continues (the result differs from
    the run with the step disabled only by the inserted warning).  When
    unpivot is requested and year columns resolve but no concept column
    is resolvable (none mapped, none found by term search), likewise with
    the unpivot warning.  However, when the mapped concept column simply
    does not exist in the frame, or when no year columns are found, the
    unpivot step is skipped silently: the result is identical to the run
    with unpivot disabled, with no warning at all. -/
theorem precondition_no_ops (data : List Row) (mapping : ColumnMapping)
    (rules : NormalizationRules) :
    (rules.debe_haber = true →
      ¬(truthy mapping.debit_column = true ∧ truthy mapping.credit_column = true ∧
        (mapping.debit_column.getD []) ∈ (stage3 data rules).df.cols ∧
        (mapping.credit_column.getD []) ∈ (stage3 data rules).df.cols) →
      ∃ w1 w2,
        (DataNormalizer.normalize data mapping rules).warnings =
          w1 ++ warnDebeNotFound :: w2 ∧
        (DataNormalizer.normalize data mapping
          { rules with debe_haber := false }).warnings = w1 ++ w2 ∧
        sameExceptWarnings (DataNormalizer.normalize data mapping rules)
          (DataNormalizer.normalize data mapping { rules with debe_haber := false })) ∧
    (rules.unpivot = true →
      ¬((if rules.unpivot_year_columns = []
         then (stepDebe mapping rules (stage3 data rules)).df.cols.filter yearLike
         else rules.unpivot_year_columns) = []) →
      truthy mapping.concept_column = true →
      ¬ (mapping.concept_column.getD []) ∈ (stepDebe mapping rules (stage3 data rules)).df.cols →
      DataNormalizer.normalize data mapping rules =
        DataNormalizer.normalize data mapping { rules with unpivot := false }) ∧
    (rules.unpivot = true →
      (if rules.unpivot_year_columns = []
       then (stepDebe mapping rules (stage3 data rules)).df.cols.filter yearLike
       else rules.unpivot_year_columns) = [] →
      DataNormalizer.normalize data mapping rules =
        DataNormalizer.normalize data mapping { rules with unpivot := false }) ∧
    (rules.unpivot = true →
      ¬((if rules.unpivot_year_columns = []
         then (stepDebe mapping rules (stage3 data rules)).df.cols.filter yearLike
         else rules.unpivot_year_columns) = []) →
      ¬(truthy mapping.concept_column = true) →
      (stepDebe mapping rules (stage3 data rules)).df.cols.find?
        (fun col => conceptTerms.any (fun t => hasSub col t)) = Option.none →
      ∃ w1 w2,
        (DataNormalizer.normalize data mapping rules).warnings =
          w1 ++ warnUnpivotNoConcept :: w2 ∧
        (DataNormalizer.normalize data mapping
          { rules with unpivot := false }).warnings = w1 ++ w2 ∧
        sameExceptWarnings (DataNormalizer.normalize data mapping rules)
          (DataNormalizer.normalize data mapping { rules with unpivot := false })) := by
  refine ⟨?_, ?_, ?_, ?_⟩
  · intro h1 h2
    have hsd : stepDebe mapping rules (stage3 data rules) =
        { stage3 data rules with
          warns := (stage3 data rules).warns ++ [warnDebeNotFound] } :=
      stepDebe_unmet mapping rules (stage3 data rules) h1 h2
    have hA : DataNormalizer.normalize data mapping rules =
        { finishFrom mapping rules ⟨(stage3 data rules).df, (stage3 data rules).fmt,
            (stage3 data rules).conf, [], (stage3 data rules).trans⟩ with
          warnings := ((stage3 data rules).warns ++ [warnDebeNotFound]) ++
            (finishFrom mapping rules ⟨(stage3 data rules).df, (stage3 data rules).fmt,
              (stage3 data rules).conf, [], (stage3 data rules).trans⟩).warnings } := by
      show finishFrom mapping rules (stepDebe mapping rules (stage3 data rules)) = _
      rw [hsd]
      exact finishFrom_warns mapping rules _ _ _ _ _
    have hB : DataNormalizer.normalize data mapping { rules with debe_haber := false } =
        { finishFrom mapping rules ⟨(stage3 data rules).df, (stage3 data rules).fmt,
            (stage3 data rules).conf, [], (stage3 data rules).trans⟩ with
          warnings := (stage3 data rules).warns ++
            (finishFrom mapping rules ⟨(stage3 data rules).df, (stage3 data rules).fmt,
              (stage3 data rules).conf, [], (stage3 data rules).trans⟩).warnings } := by
      show finishFrom mapping rules (stage3 data rules) = _
      exact finishFrom_warns mapping rules (stage3 data rules).df (stage3 data rules).fmt
        (stage3 data rules).conf (stage3 data rules).trans (stage3 data rules).warns
    refine ⟨(stage3 data rules).warns,
      (finishFrom mapping rules ⟨(stage3 data rules).df, (stage3 data rules).fmt,
        (stage3 data rules).conf, [], (stage3 data rules).trans⟩).warnings, ?_, ?_, ?_⟩
    · rw [hA]
      simp [List.append_assoc]
    · rw [hB]
    · rw [hA, hB]
      exact ⟨rfl, rfl, rfl, rfl, rfl, rfl⟩
  · intro h1 hy h3 h4
    have hu := stepUnpivot_skip_mapped_absent mapping rules
      (stepDebe mapping rules (stage3 data rules)) h1 hy h3 h4
    have e : DataNormalizer.normalize data mapping { rules with unpivot := false } =
        assembleResult (stepValidate (stepRename mapping (stepInvert mapping rules
          (stepDebe mapping rules (stage3 data rules))))) := rfl
    rw [e]
    show assembleResult (stepValidate (stepRename mapping (stepInvert mapping rules
      (stepUnpivot mapping rules (stepDebe mapping rules (stage3 data rules)))))) = _
    rw [hu]
  · intro h1 hy
    have hu := stepUnpivot_skip_no_years mapping rules
      (stepDebe mapping rules (stage3 data rules)) h1 hy
    have e : DataNormalizer.normalize data mapping { rules with unpivot := false } =
        assembleResult (stepValidate (stepRename mapping (stepInvert mapping rules
          (stepDebe mapping rules (stage3 data rules))))) := rfl
    rw [e]
    show assembleResult (stepValidate (stepRename mapping (stepInvert mapping rules
      (stepUnpivot mapping rules (stepDebe mapping rules (stage3 data rules)))))) = _
    rw [hu]
  · intro h1 hy h3 h5
    have hu := stepUnpivot_warn_no_concept mapping rules
      (stepDebe mapping rules (stage3 data rules)) h1 hy h3 h5
    have hA : DataNormalizer.normalize data mapping rules =
        { assembleResult (stepValidate (stepRename mapping (stepInvert mapping rules
            ⟨(stepDebe mapping rules (stage3 data rules)).df,
             (stepDebe mapping rules (stage3 data rules)).fmt,
             (stepDebe mapping rules (stage3 data rules)).conf, [],
             (stepDebe mapping rules (stage3 data rules)).trans⟩))) with
          warnings := ((stepDebe mapping rules (stage3 data rules)).warns ++
              [warnUnpivotNoConcept]) ++
            (assembleResult (stepValidate (stepRename mapping (stepInvert mapping rules
              ⟨(stepDebe mapping rules (stage3 data rules)).df,
               (stepDebe mapping rules (stage3 data rules)).fmt,
               (stepDebe mapping rules (stage3 data rules)).conf, [],
               (stepDebe mapping rules (stage3 data rules)).trans⟩)))).warnings } := by
      show assembleResult (stepValidate (stepRename mapping (stepInvert mapping rules
        (stepUnpivot mapping rules (stepDebe mapping rules (stage3 data rules)))))) = _
      rw [hu]
      exact tailFrom_warns mapping rules _ _ _ _ _
    have hB : DataNormalizer.normalize data mapping { rules with unpivot := false } =
        { assembleResult (stepValidate (stepRename mapping (stepInvert mapping rules
            ⟨(stepDebe mapping rules (stage3 data rules)).df,
             (stepDebe mapping rules (stage3 data rules)).fmt,
             (stepDebe mapping rules (stage3 data rules)).conf, [],
             (stepDebe mapping rules (stage3 data rules)).trans⟩))) with
          warnings := (stepDebe mapping rules (stage3 data rules)).warns ++
            (assembleResult (stepValidate (stepRename mapping (stepInvert mapping rules
              ⟨(stepDebe mapping rules (stage3 data rules)).df,
               (stepDebe mapping rules (stage3 data rules)).fmt,
               (stepDebe mapping rules (stage3 data rules)).conf, [],
               (stepDebe mapping rules (stage3 data rules)).trans⟩)))).warnings } := by
      show assembleResult (stepValidate (stepRename mapping (stepInvert mapping rules
        (stepDebe mapping rules (stage3 data rules))))) = _
      exact tailFrom_warns mapping rules (stepDebe mapping rules (stage3 data rules)).df
        (stepDebe mapping rules (stage3 data rules)).fmt
        (stepDebe mapping rules (stage3 data rules)).conf
        (stepDebe mapping rules (stage3 data rules)).trans
        (stepDebe mapping rules (stage3 data rules)).warns
    refine ⟨(stepDebe mapping rules (stage3 data rules)).warns,
      (assembleResult (stepValidate (stepRename mapping (stepInvert mapping rules
        ⟨(stepDebe mapping rules (stage3 data rules)).df,
         (stepDebe mapping rules (stage3 data rules)).fmt,
         (stepDebe mapping rules (stage3 data rules)).conf, [],
         (stepDebe mapping rules (stage3 data rules)).trans⟩)))).warnings, ?_, ?_, ?_⟩
    · rw [hA]
      simp [List.append_assoc]
    · rw [hB]
    · rw [hA, hB]
      exact ⟨rfl, rfl, rfl, rfl, rfl, rfl⟩

theorem precondition_no_ops_witness :
    DataNormalizer.normalize silentSkipData silentSkipMapping silentSkipRules =
      DataNormalizer.normalize silentSkipData silentSkipMapping
        { silentSkipRules with unpivot := false } :=
  (precondition_no_ops silentSkipData silentSkipMapping silentSkipRules).2.1
    (by decide) (by decide) (by decide) (by decide)
